import Mathlib

/-!
# Seth transaction handlers

A shallow embedding of `processor/src/seth_tp/handler/transaction_handlers.go`:
the five transaction handlers (`CreateExternalAccount`, `CreateContractAccount`,
`MessageCall`, `ReadOnlyMessageCall`, `SetPermissions`) and the dispatch table
`TxnHandlers`.

Go's mutable `*SawtoothAppState` becomes explicit state passing: every handler
takes the state before the call and returns the `HandlerResult` together with
the state after the call.  The collaborators that live outside the handler
file (the State Accessor, the permission evaluator, the execution engine, the
address and permission conversions) are modelled from the specification and
are marked as such; the setters of the account library are a parameter.
-/

namespace Seth

/-! ## Data model -/

/-- Byte strings (`[]byte`); each element stands for one byte. -/
abbrev Bytes := List Nat

/-- An account address, carried as its byte string. -/
abbrev Address := List Nat

/-- Modelled from the spec: the width of an Address ("fixed-width (20-byte)
identifier of an account"). -/
def EVMADDRLEN : Nat := 20

/-- Modelled from the spec: `NewEvmAddrFromBytes` is not part of the handler
file.  An address is well-formed exactly when it is 20 bytes long; anything else
is the error result. -/
def NewEvmAddrFromBytes (b : Bytes) : Option Address :=
  if b.length = EVMADDRLEN then some b else none

/-- Modelled from the spec: the reserved, well-known address of the Global
Permission Account (`acm.GlobalPermissionsAddress`), the all-zero address. -/
def GlobalPermissionsAddress : Address := List.replicate 20 0

/-- The named capability flags of a permission record. -/
inductive PermFlag where
  | CreateAccount
  | CreateContract
  | Call
  | Root
  deriving DecidableEq, Repr

/-- A set of capability flags, as a bit mask over the named flags. -/
abbrev PermMask := PermFlag → Bool

/-- The mask holding the single flag `f` (`permission.Root`, `permission.Call`, ...). -/
def PermMask.only (f : PermFlag) : PermMask := fun g => decide (g = f)

/-- Modelled from the spec: the "all" convenience flag (`permission.AllPermFlags`). -/
def AllPermFlags : PermMask := fun _ => true

/-- Modelled from the spec: a permission record is "a pair `(bits, setMask)`":
`Perms` holds the boolean value of every flag and `SetBit` records, per flag,
whether the account has an explicit value. -/
structure BasePermissions where
  Perms : PermFlag → Bool
  SetBit : PermFlag → Bool

/-- The zero value of a permission record: nothing granted, nothing set. -/
def BasePermissions.zero : BasePermissions :=
  { Perms := fun _ => false, SetBit := fun _ => false }

/-- Modelled from the spec: `Base.Set(ty, value)` gives every flag of the mask
`ty` the explicit value `value`: the flags of `ty` are added to the set-mask
and are switched on (`value = true`) or off (`value = false`) in the bits. -/
def BasePermissions.Set (bp : BasePermissions) (ty : PermMask) (value : Bool) :
    BasePermissions :=
  { SetBit := fun f => bp.SetBit f || ty f
    Perms := fun f => if value then bp.Perms f || ty f else bp.Perms f && !ty f }

/-- The permission record of an account (`permission.AccountPermissions`). -/
structure AccountPermissions where
  Base : BasePermissions

/-- The permission record carried by a transaction (`EvmPermissions`). -/
structure EvmPermissions where
  Perms : PermFlag → Bool
  SetBit : PermFlag → Bool

/-- Modelled from the spec: `toVmPermissions` is not part of the handler file.
It converts the transaction's permission record into an account permission
record, bits to bits and set-mask to set-mask. -/
def toVmPermissions (p : EvmPermissions) : AccountPermissions :=
  { Base := { Perms := p.Perms, SetBit := p.SetBit } }

/-- Modelled from the spec: an account as the handlers see it (`acm.Account` /
`acm.MutableAccount`), with its address, its sequence ("unsigned integer
nonce"), its code and its permission record.  Values of this type are private
copies, so a change to one is visible in the state only after `UpdateAccount`. -/
structure Account where
  address : Address
  sequence : Nat
  code : Bytes
  permissions : AccountPermissions

/-- The method `acc.IncSequence()`: the sequence goes up by one. -/
def Account.IncSequence (a : Account) : Account :=
  { a with sequence := a.sequence + 1 }

/-- The account `a` with the code `c` installed: what a `SetCode` that reports
no error has done. -/
def Account.withCode (a : Account) (c : Bytes) : Account :=
  { a with code := c }

/-- The account `a` with the permission record `p` installed: what a
`SetPermissions` that reports no error has done. -/
def Account.withPermissions (a : Account) (p : AccountPermissions) : Account :=
  { a with permissions := p }

/-- A parameter of the embedding: the two setters of the account library
(`acm.MutableAccount`), whose code is not part of the handler file.  Both return
an error, which `CreateContractAccount` tests (lines 300-318) and
`SetPermissions` discards (line 605).  The fields say which code and which
permission record the library refuses for a given account. -/
structure AccountSetters where
  refusesCode : Account → Bytes → Bool
  refusesPermissions : Account → AccountPermissions → Bool

/-- The method `acc.SetCode(code)`: the account after the call, and `true` when
an error is returned, in which case the account is as it was. -/
def Account.SetCode (a : Account) (setters : AccountSetters) (c : Bytes) : Account × Bool :=
  if setters.refusesCode a c then (a, true) else (a.withCode c, false)

/-- The method `acc.SetPermissions(perms)`: the account after the call, and
`true` when an error is returned, in which case the account is as it was. -/
def Account.SetPermissions (a : Account) (setters : AccountSetters)
    (p : AccountPermissions) : Account × Bool :=
  if setters.refusesPermissions a p then (a, true) else (a.withPermissions p, false)

/-! ## The State Accessor -/

/-- What the ledger stores under an address. -/
structure AccountData where
  sequence : Nat
  code : Bytes
  permissions : AccountPermissions

/-- Modelled from the spec: the State Accessor (`SawtoothAppState`) is not part
of the handler file.  `entries` is the ledger: the account stored under each
address, if any.  `getFails` and `updateFails` say for which lookups and for
which persists the accessor reports an error ("`GetAccount(address) ->
Account|absent, Error`", "`UpdateAccount(account) -> Error|nil`").
`deriveAddress` is the deterministic derivation of a contract address "from
creator address + nonce". -/
structure SawtoothAppState where
  entries : Address → Option AccountData
  getFails : Address → Bool
  updateFails : Account → Bool
  deriveAddress : Address → Nat → Address

/-- Modelled from the spec: "`GetAccount(address) -> Account|absent, Error` —
lookup by address; absent is not an error".  The first component is the account
(`none` for Go's `nil`), the second is `true` when an error is reported; a
failed lookup returns no account. -/
def SawtoothAppState.GetAccount (s : SawtoothAppState) (addr : Address) :
    Option Account × Bool :=
  if s.getFails addr then (none, true)
  else ((s.entries addr).map
    (fun d => { address := addr, sequence := d.sequence, code := d.code,
                permissions := d.permissions }), false)

/-- The ledger with the record of `acct` written under its address. -/
def SawtoothAppState.store (s : SawtoothAppState) (acct : Account) : SawtoothAppState :=
  { s with entries := fun a =>
      if a = acct.address then
        some { sequence := acct.sequence, code := acct.code, permissions := acct.permissions }
      else s.entries a }

/-- Modelled from the spec: "`UpdateAccount(account) -> Error|nil` — persists
full account record (overwrite)".  The second component is `true` when an error
is reported, in which case nothing is persisted. -/
def SawtoothAppState.UpdateAccount (s : SawtoothAppState) (acct : Account) :
    SawtoothAppState × Bool :=
  if s.updateFails acct then (s, true) else (s.store acct, false)

/-- The outcome of the State Accessor's `CreateAccount`: the state holding the
allocated account, the creator with its incremented sequence, and the new
account. -/
structure Created where
  state : SawtoothAppState
  creator : Account
  newAcct : Account

/-- Modelled from the spec: "`CreateAccount(creatorAccount) -> Account` —
allocates a new account at a derived address and increments
`creatorAccount.sequence` as a side effect; the returned account has sequence 1
and empty permissions until set by the caller".  The allocation is a write to
the State Accessor; the creator's increment is made on the caller's copy. -/
def SawtoothAppState.CreateAccount (s : SawtoothAppState) (creator : Account) : Created :=
  let newAcct : Account :=
    { address := s.deriveAddress creator.address creator.sequence
      sequence := 1
      code := []
      permissions := { Base := BasePermissions.zero } }
  { state := s.store newAcct, creator := creator.IncSequence, newAcct := newAcct }

/-! ## The permission evaluator -/

/-- Modelled from the spec: `evm.HasPermission` (§4.1).  "If
`account.permissions.setMask` has `flag` set, return
`account.permissions.bits[flag]`.  Otherwise consult the Global Permission
Account: if it does not yet exist in the ledger, resolution is open [...].  If
it exists, recurse one level into its own bits ([...] if a flag is unset there
too, treat as denied)." -/
def HasPermission (sapps : SawtoothAppState) (acc : Account) (flag : PermFlag) : Bool :=
  if acc.permissions.Base.SetBit flag then acc.permissions.Base.Perms flag
  else
    match (sapps.GetAccount GlobalPermissionsAddress).1 with
    | none => true
    | some g =>
      if g.permissions.Base.SetBit flag then g.permissions.Base.Perms flag else false

/-! ## The execution engine -/

/-- The block a call is evaluated against: `"latest"` or a block number. -/
inductive BlockRef where
  | latest
  | number (n : Nat)
  deriving DecidableEq, Repr

/-- The arguments of one `callVm` invocation, the state apart. -/
structure VmCall where
  caller : Account
  callee : Option Account
  code : Bytes
  input : Bytes
  gas : Nat
  blockRef : BlockRef

/-- Modelled from the spec: the execution engine (`callVm`) is an external
collaborator: "`CallVM(state, callerAccount, calleeAccount|nil, code,
inputData, gasLimit, blockRef) -> (outputBytes, gasUsed, Error|nil)`".  The
result is `some (out, gasUsed)` or `none` for an error.  The engine owns only
the EVM-level state (balance, storage), which is not represented here, so it
leaves sequences, code and permission records as they are. -/
abbrev Engine := SawtoothAppState → VmCall → Option (Bytes × Nat)

/-! ## Transactions and results -/

/-- The classification of a rejected transaction (spec §7).  Every error of the
handlers is a `processor.InvalidTransactionError`; the class is read off the
message of the return site:

* `SenderNotFound`: "Creating account must already exist ...", "Sender account
  must already exist ...";
* `ReceiverNotFound`: "Receiver account must already exist ...";
* `AccountExists`: "Account already exists at address ...";
* `PermissionDenied`: "... does not have permission ...", "New account creation
  is disabled ...";
* `NonceMismatch`: "Nonces do not match ...";
* `MissingPermissions`: "Permissions field cannot be blank ...";
* `AddressMalformed`: "Failed to construct address ...", "Failed to construct
  receiver address ...";
* `ExecutionFailed`: "Error while calling VM ...", and the engine's own message
  in the two message calls;
* `StateAccessError`: "Error while checking for account ...", "Failed to get
  sender account ...", "Failed to get global permissions address ...",
  "Couldn't get sender account ...", "Error while retrieving receiver account
  ...", "Failed to update account ...", "Error Updating sender account ...",
  "Error updating new account ...", and the accessor's own message after a
  failed `UpdateAccount`.

The last two classes are not in the taxonomy of the spec; they stand for the two
messages of `CreateContractAccount` that fit none of its classes:

* `SetCodeFailed`: "Error setting code for new account ...";
* `SetPermissionsFailed`: "Error setting permissions for new account ...". -/
inductive HandlerError where
  | SenderNotFound
  | ReceiverNotFound
  | AccountExists
  | PermissionDenied
  | NonceMismatch
  | MissingPermissions
  | AddressMalformed
  | ExecutionFailed
  | StateAccessError
  | SetCodeFailed
  | SetPermissionsFailed
  deriving DecidableEq, Repr

/-- The result of a handler (`HandlerResult`). -/
structure HandlerResult where
  Error : Option HandlerError
  NewAccount : Option Account
  ReturnValue : Bytes
  GasUsed : Nat

/-- The result `HandlerResult{Error: ...}`. -/
def HandlerResult.fail (e : HandlerError) : HandlerResult :=
  { Error := some e, NewAccount := none, ReturnValue := [], GasUsed := 0 }

/-- The body of a `CREATE_EXTERNAL_ACCOUNT` transaction. -/
structure CreateExternalAccountTxn where
  To : Option Bytes
  Nonce : Nat
  Permissions : Option EvmPermissions

/-- The body of a `CREATE_CONTRACT_ACCOUNT` transaction. -/
structure CreateContractAccountTxn where
  Init : Bytes
  Nonce : Nat
  GasLimit : Nat
  Permissions : Option EvmPermissions

/-- The body of a `MESSAGE_CALL` transaction. -/
structure MessageCallTxn where
  To : Bytes
  Nonce : Nat
  Data : Bytes
  GasLimit : Nat

/-- The body of a `READ_ONLY_MESSAGE_CALL` transaction. -/
structure ReadOnlyMessageCallTxn where
  To : Bytes
  Data : Bytes
  GasLimit : Nat
  BlockNum : Nat

/-- The body of a `SET_PERMISSIONS` transaction. -/
structure SetPermissionsTxn where
  To : Bytes
  Nonce : Nat
  Permissions : Option EvmPermissions

/-- A transaction: its kind together with the body of that kind. -/
inductive SethTransaction where
  | CREATE_EXTERNAL_ACCOUNT (txn : CreateExternalAccountTxn)
  | CREATE_CONTRACT_ACCOUNT (txn : CreateContractAccountTxn)
  | MESSAGE_CALL (txn : MessageCallTxn)
  | SET_PERMISSIONS (txn : SetPermissionsTxn)
  | READ_ONLY_MESSAGE_CALL (txn : ReadOnlyMessageCallTxn)

/-! ## The handlers -/

/-- The handler `CreateExternalAccount` (lines 41-222). -/
def CreateExternalAccount (txn : CreateExternalAccountTxn) (sender : Address)
    (sapps : SawtoothAppState) : HandlerResult × SawtoothAppState :=
  match txn.To with
  | some toBytes =>
    -- The creating account must exist and have permission to create accounts
    match (sapps.GetAccount sender).1 with
    | none => (HandlerResult.fail .SenderNotFound, sapps)
    | some senderAcct =>
      if !HasPermission sapps senderAcct .CreateAccount then
        (HandlerResult.fail .PermissionDenied, sapps)
      else if txn.Nonce ≠ senderAcct.sequence then
        (HandlerResult.fail .NonceMismatch, sapps)
      else
        match NewEvmAddrFromBytes toBytes with
        | none => (HandlerResult.fail .AddressMalformed, sapps)
        | some newAcctAddr =>
          -- The new account must not already exist
          match sapps.GetAccount newAcctAddr with
          | (some _, _) => (HandlerResult.fail .AccountExists, sapps)
          | (none, true) => (HandlerResult.fail .StateAccessError, sapps)
          | (none, false) =>
            let persist (newPerms : AccountPermissions) : HandlerResult × SawtoothAppState :=
              let newAcct : Account :=
                { address := newAcctAddr, sequence := 1, code := [], permissions := newPerms }
              let senderAcct1 := senderAcct.IncSequence
              match sapps.UpdateAccount senderAcct1 with
              | (s1, true) => (HandlerResult.fail .StateAccessError, s1)
              | (s1, false) =>
                match s1.UpdateAccount newAcct with
                | (s2, true) => (HandlerResult.fail .StateAccessError, s2)
                | (s2, false) =>
                  ({ Error := none, NewAccount := some newAcct, ReturnValue := [], GasUsed := 0 },
                   s2)
            match txn.Permissions with
            | none =>
              persist { Base := senderAcct.permissions.Base.Set (PermMask.only .Root) false }
            | some perms =>
              if !HasPermission sapps senderAcct .Root then
                (HandlerResult.fail .PermissionDenied, sapps)
              else persist (toVmPermissions perms)
  | none =>
    -- The new account must not already exist
    match sapps.GetAccount sender with
    | (_, true) => (HandlerResult.fail .StateAccessError, sapps)
    | (some _, false) => (HandlerResult.fail .AccountExists, sapps)
    | (none, false) =>
      -- Check global permissions to decide if the account can be created
      match sapps.GetAccount GlobalPermissionsAddress with
      | (_, true) => (HandlerResult.fail .StateAccessError, sapps)
      | (global, false) =>
        let persist (newPerms : AccountPermissions) : HandlerResult × SawtoothAppState :=
          let newAcct : Account :=
            { address := sender, sequence := 1, code := [], permissions := newPerms }
          match sapps.UpdateAccount newAcct with
          | (s1, true) => (HandlerResult.fail .StateAccessError, s1)
          | (s1, false) =>
            ({ Error := none, NewAccount := some newAcct, ReturnValue := [], GasUsed := 0 }, s1)
        match global with
        | none => persist { Base := BasePermissions.zero.Set AllPermFlags true }
        | some g =>
          if !HasPermission sapps g .CreateAccount then
            (HandlerResult.fail .PermissionDenied, sapps)
          else persist { Base := g.permissions.Base.Set (PermMask.only .Root) false }

/-- The handler `CreateContractAccount` (lines 224-345). -/
def CreateContractAccount (setters : AccountSetters) (callVm : Engine)
    (txn : CreateContractAccountTxn) (sender : Address) (sapps : SawtoothAppState) :
    HandlerResult × SawtoothAppState :=
  -- The creating account must already exist
  match sapps.GetAccount sender with
  | (_, true) => (HandlerResult.fail .StateAccessError, sapps)
  | (none, false) => (HandlerResult.fail .SenderNotFound, sapps)
  | (some senderAcct, false) =>
    -- Verify this account has permission to create contract accounts
    if !HasPermission sapps senderAcct .CreateContract then
      (HandlerResult.fail .PermissionDenied, sapps)
    -- Check that the nonce in the transaction matches the nonce in state
    else if txn.Nonce ≠ senderAcct.sequence then
      (HandlerResult.fail .NonceMismatch, sapps)
    else
      let construct (newPerms : AccountPermissions) : HandlerResult × SawtoothAppState :=
        -- Create the new account; the sender's nonce is incremented
        let created := sapps.CreateAccount senderAcct
        -- Initialize the new account
        match callVm created.state
            { caller := created.newAcct, callee := none, code := txn.Init, input := [],
              gas := txn.GasLimit, blockRef := .latest } with
        | none => (HandlerResult.fail .ExecutionFailed, created.state)
        | some (out, gasUsed) =>
          let newAcct1 := created.newAcct.IncSequence
          -- lines 300-308: "Error setting code for new account"
          match newAcct1.SetCode setters out with
          | (_, true) => (HandlerResult.fail .SetCodeFailed, created.state)
          | (newAcct2, false) =>
            -- lines 310-318: "Error setting permissions for new account"
            match newAcct2.SetPermissions setters newPerms with
            | (_, true) => (HandlerResult.fail .SetPermissionsFailed, created.state)
            | (newAcct, false) =>
              -- Update accounts in state
              match created.state.UpdateAccount created.creator with
              | (s1, true) => (HandlerResult.fail .StateAccessError, s1)
              | (s1, false) =>
                match s1.UpdateAccount newAcct with
                | (s2, true) => (HandlerResult.fail .StateAccessError, s2)
                | (s2, false) =>
                  ({ Error := none, NewAccount := some newAcct, ReturnValue := out,
                     GasUsed := gasUsed }, s2)
      match txn.Permissions with
      | none => construct { Base := senderAcct.permissions.Base.Set (PermMask.only .Root) false }
      | some perms =>
        if !HasPermission sapps senderAcct .Root then
          (HandlerResult.fail .PermissionDenied, sapps)
        else construct (toVmPermissions perms)

/-- The handler `MessageCall` (lines 347-436).  The results of the two
`UpdateAccount` calls are not looked at. -/
def MessageCall (callVm : Engine) (txn : MessageCallTxn) (sender : Address)
    (sapps : SawtoothAppState) : HandlerResult × SawtoothAppState :=
  -- The sender account must already exist
  match (sapps.GetAccount sender).1 with
  | none => (HandlerResult.fail .SenderNotFound, sapps)
  | some senderAcct =>
    -- Verify this account has permission to make message calls
    if !HasPermission sapps senderAcct .Call then
      (HandlerResult.fail .PermissionDenied, sapps)
    -- Check that the nonce in the transaction matches the nonce in state
    else if txn.Nonce ≠ senderAcct.sequence then
      (HandlerResult.fail .NonceMismatch, sapps)
    else
      match NewEvmAddrFromBytes txn.To with
      | none => (HandlerResult.fail .AddressMalformed, sapps)
      | some receiver =>
        match sapps.GetAccount receiver with
        | (_, true) => (HandlerResult.fail .StateAccessError, sapps)
        -- Receiving account must exist to call it
        | (none, false) => (HandlerResult.fail .ReceiverNotFound, sapps)
        | (some receiverAcct, false) =>
          -- Execute the contract
          match callVm sapps
              { caller := senderAcct, callee := some receiverAcct, code := receiverAcct.code,
                input := txn.Data, gas := txn.GasLimit, blockRef := .latest } with
          | none => (HandlerResult.fail .ExecutionFailed, sapps)
          | some (out, gasUsed) =>
            let senderAcct1 := senderAcct.IncSequence
            let s1 := (sapps.UpdateAccount senderAcct1).1
            let s2 := (s1.UpdateAccount receiverAcct).1
            ({ Error := none, NewAccount := none, ReturnValue := out, GasUsed := gasUsed }, s2)

/-- The handler `ReadOnlyMessageCall` (lines 438-517). -/
def ReadOnlyMessageCall (callVm : Engine) (txn : ReadOnlyMessageCallTxn) (sender : Address)
    (sapps : SawtoothAppState) : HandlerResult × SawtoothAppState :=
  -- The sender account must already exist
  match (sapps.GetAccount sender).1 with
  | none => (HandlerResult.fail .SenderNotFound, sapps)
  | some senderAcct =>
    -- Verify this account has permission to make message calls
    if !HasPermission sapps senderAcct .Call then
      (HandlerResult.fail .PermissionDenied, sapps)
    else
      match NewEvmAddrFromBytes txn.To with
      | none => (HandlerResult.fail .AddressMalformed, sapps)
      | some receiver =>
        match sapps.GetAccount receiver with
        | (_, true) => (HandlerResult.fail .StateAccessError, sapps)
        -- Receiving account must exist to call it
        | (none, false) => (HandlerResult.fail .ReceiverNotFound, sapps)
        | (some receiverAcct, false) =>
          -- Execute the contract
          match callVm sapps
              { caller := senderAcct, callee := some receiverAcct, code := receiverAcct.code,
                input := txn.Data, gas := txn.GasLimit, blockRef := .number txn.BlockNum } with
          | none => (HandlerResult.fail .ExecutionFailed, sapps)
          | some (out, gasUsed) =>
            ({ Error := none, NewAccount := none, ReturnValue := out, GasUsed := gasUsed },
             sapps)

/-- The handler `SetPermissions` (lines 519-611).  The result of
`receiverAcct.SetPermissions` and the results of the two `UpdateAccount` calls
are not looked at. -/
def SetPermissions (setters : AccountSetters) (txn : SetPermissionsTxn) (sender : Address)
    (sapps : SawtoothAppState) : HandlerResult × SawtoothAppState :=
  match txn.Permissions with
  | none => (HandlerResult.fail .MissingPermissions, sapps)
  | some perms =>
    let newPerms := toVmPermissions perms
    -- Get the account that is trying to update permissions
    match (sapps.GetAccount sender).1 with
    | none => (HandlerResult.fail .SenderNotFound, sapps)
    | some senderAcct =>
      -- Verify this account has permission to update permissions
      if !HasPermission sapps senderAcct .Root then
        (HandlerResult.fail .PermissionDenied, sapps)
      -- Check that the nonce in the transaction matches the nonce in state
      else if txn.Nonce ≠ senderAcct.sequence then
        (HandlerResult.fail .NonceMismatch, sapps)
      else
        match NewEvmAddrFromBytes txn.To with
        | none => (HandlerResult.fail .AddressMalformed, sapps)
        | some receiver =>
          let update (receiverAcct : Account) : HandlerResult × SawtoothAppState :=
            -- Update accounts
            let senderAcct1 := senderAcct.IncSequence
            -- line 605: the error of the setter is discarded
            let receiverAcct1 := (receiverAcct.SetPermissions setters newPerms).1
            let s1 := (sapps.UpdateAccount senderAcct1).1
            let s2 := (s1.UpdateAccount receiverAcct1).1
            ({ Error := none, NewAccount := none, ReturnValue := [], GasUsed := 0 }, s2)
          match sapps.GetAccount receiver with
          | (_, true) => (HandlerResult.fail .StateAccessError, sapps)
          | (some receiverAcct, false) => update receiverAcct
          | (none, false) =>
            if receiver = GlobalPermissionsAddress then
              update { address := receiver, sequence := 1, code := [],
                       permissions := { Base := BasePermissions.zero } }
            else (HandlerResult.fail .ReceiverNotFound, sapps)

/-- The dispatch table `TxnHandlers`: the handler of each transaction kind. -/
def TxnHandlers (setters : AccountSetters) (callVm : Engine) (wrapper : SethTransaction)
    (sender : Address) (sapps : SawtoothAppState) : HandlerResult × SawtoothAppState :=
  match wrapper with
  | .CREATE_EXTERNAL_ACCOUNT txn => CreateExternalAccount txn sender sapps
  | .CREATE_CONTRACT_ACCOUNT txn => CreateContractAccount setters callVm txn sender sapps
  | .MESSAGE_CALL txn => MessageCall callVm txn sender sapps
  | .SET_PERMISSIONS txn => SetPermissions setters txn sender sapps
  | .READ_ONLY_MESSAGE_CALL txn => ReadOnlyMessageCall callVm txn sender sapps

/-! ## Example ledgers -/

/-- An account address used in the examples. -/
def addrA : Address := List.replicate 20 1

/-- A second account address used in the examples. -/
def addrB : Address := List.replicate 20 2

/-- The permission record with every flag explicitly granted. -/
def allPerms : AccountPermissions := { Base := BasePermissions.zero.Set AllPermFlags true }

/-- The permission record that grants every flag except `CreateAccount`, which
it explicitly denies. -/
def noCreatePerms : AccountPermissions :=
  { Base := allPerms.Base.Set (PermMask.only .CreateAccount) false }

/-- The permission record that explicitly grants `CreateAccount`, explicitly
denies `Root` and leaves the other flags unset. -/
def sponsorPerms : AccountPermissions :=
  { Base := (BasePermissions.zero.Set (PermMask.only .CreateAccount) true).Set
      (PermMask.only .Root) false }

/-- The transaction permission record with every flag explicitly granted. -/
def allEvmPerms : EvmPermissions := { Perms := fun _ => true, SetBit := fun _ => true }

/-- The transaction permission record that explicitly grants every flag except
`Root`, which it explicitly denies. -/
def noRootEvmPerms : EvmPermissions :=
  { Perms := fun f => decide (f ≠ .Root), SetBit := fun _ => true }

/-- An address derivation for the examples: every byte is moved by the nonce
plus one. -/
def exampleDerive (creator : Address) (nonce : Nat) : Address :=
  creator.map (fun b => b + nonce + 1)

/-- The ledger that holds a single account, at `addr`, with the given sequence
and permission record and no code; the accessor reports no error. -/
def ledgerWith (addr : Address) (seq : Nat) (perms : AccountPermissions) : SawtoothAppState :=
  { entries := fun a =>
      if a = addr then some { sequence := seq, code := [], permissions := perms } else none
    getFails := fun _ => false
    updateFails := fun _ => false
    deriveAddress := exampleDerive }

/-- The empty ledger; the accessor reports no error. -/
def emptyLedger : SawtoothAppState :=
  { entries := fun _ => none
    getFails := fun _ => false
    updateFails := fun _ => false
    deriveAddress := exampleDerive }

/-- The ledger that holds two accounts without code, at `addr1` and at `addr2`;
the accessor reports no error. -/
def ledgerWithTwo (addr1 : Address) (seq1 : Nat) (perms1 : AccountPermissions)
    (addr2 : Address) (seq2 : Nat) (perms2 : AccountPermissions) : SawtoothAppState :=
  { entries := fun a =>
      if a = addr1 then some { sequence := seq1, code := [], permissions := perms1 }
      else if a = addr2 then some { sequence := seq2, code := [], permissions := perms2 }
      else none
    getFails := fun _ => false
    updateFails := fun _ => false
    deriveAddress := exampleDerive }

/-- The permission record that explicitly grants every flag except `Call`,
which it explicitly denies. -/
def noCallPerms : AccountPermissions :=
  { Base := allPerms.Base.Set (PermMask.only .Call) false }

/-- The permission record that explicitly grants every flag except `Root`,
which it explicitly denies. -/
def noRootPerms : AccountPermissions :=
  { Base := allPerms.Base.Set (PermMask.only .Root) false }

/-- The account library that refuses no code and no permission record. -/
def acceptingSetters : AccountSetters :=
  { refusesCode := fun _ _ => false, refusesPermissions := fun _ _ => false }

/-- The account library that refuses every permission record, and no code. -/
def permissionRefusingSetters : AccountSetters :=
  { refusesCode := fun _ _ => false
    refusesPermissions := fun _ _ => true }

/-- The accessor `s` made to report an error for every persist of an account
at `addr`. -/
def failingUpdatesAt (s : SawtoothAppState) (addr : Address) : SawtoothAppState :=
  { s with updateFails := fun acct => decide (acct.address = addr) }

/-- An engine that fails on every call. -/
def failingEngine : Engine := fun _ _ => none

/-- An engine that returns the bytes `out` and the gas `gas` on every call. -/
def constEngine (out : Bytes) (gas : Nat) : Engine := fun _ _ => some (out, gas)

/-! ## Theorems -/

/-! ### Which errors leave the state as it was -/

/-- `ReadOnlyMessageCall` returns the state it was given. -/
theorem ReadOnlyMessageCall_state (callVm : Engine) (txn : ReadOnlyMessageCallTxn)
    (sender : Address) (sapps : SawtoothAppState) :
    (ReadOnlyMessageCall callVm txn sender sapps).2 = sapps := by
  unfold ReadOnlyMessageCall
  repeat' split
  all_goals rfl

/-- `MessageCall` either succeeds or returns the state it was given. -/
theorem MessageCall_error_state (callVm : Engine) (txn : MessageCallTxn)
    (sender : Address) (sapps : SawtoothAppState) :
    (MessageCall callVm txn sender sapps).1.Error = none
      ∨ (MessageCall callVm txn sender sapps).2 = sapps := by
  unfold MessageCall
  repeat' split
  all_goals simp [HandlerResult.fail]

/-- `SetPermissions` either succeeds or returns the state it was given. -/
theorem SetPermissions_error_state (setters : AccountSetters) (txn : SetPermissionsTxn)
    (sender : Address) (sapps : SawtoothAppState) :
    (SetPermissions setters txn sender sapps).1.Error = none
      ∨ (SetPermissions setters txn sender sapps).2 = sapps := by
  unfold SetPermissions
  repeat' split
  all_goals simp [HandlerResult.fail]

/-- A persist reports no error exactly when it has written the account. -/
theorem UpdateAccount_ok_iff {s s1 : SawtoothAppState} {acct : Account} :
    s.UpdateAccount acct = (s1, false) ↔ s.updateFails acct = false ∧ s1 = s.store acct := by
  unfold SawtoothAppState.UpdateAccount
  by_cases hf : s.updateFails acct = true
  · simp [hf]
  · simp only [hf, Bool.false_eq_true, if_false, Prod.mk.injEq, and_true]
    constructor
    · intro h; exact ⟨by simp [hf], h.symm⟩
    · intro h; exact h.2.symm

/-- A persist that reports an error has written nothing. -/
theorem UpdateAccount_err_iff {s s1 : SawtoothAppState} {acct : Account} :
    s.UpdateAccount acct = (s1, true) ↔ s.updateFails acct = true ∧ s1 = s := by
  unfold SawtoothAppState.UpdateAccount
  by_cases hf : s.updateFails acct = true
  · simp only [hf, if_true, Prod.mk.injEq, and_true, true_and]
    exact eq_comm
  · simp [hf]

/-- The setter `SetCode` reports no error exactly when the library does not
refuse the code, and it has then installed the code. -/
theorem SetCode_ok_iff {setters : AccountSetters} {a a1 : Account} {c : Bytes} :
    a.SetCode setters c = (a1, false)
      ↔ setters.refusesCode a c = false ∧ a1 = a.withCode c := by
  unfold Account.SetCode
  by_cases hf : setters.refusesCode a c = true
  · simp [hf]
  · simp only [hf, Bool.false_eq_true, if_false, Prod.mk.injEq, and_true]
    constructor
    · intro h; exact ⟨by simp [hf], h.symm⟩
    · intro h; exact h.2.symm

/-- The setter `SetCode` reports an error exactly when the library refuses the
code, and the account is then as it was. -/
theorem SetCode_err_iff {setters : AccountSetters} {a a1 : Account} {c : Bytes} :
    a.SetCode setters c = (a1, true) ↔ setters.refusesCode a c = true ∧ a1 = a := by
  unfold Account.SetCode
  by_cases hf : setters.refusesCode a c = true
  · simp only [hf, if_true, Prod.mk.injEq, and_true, true_and]
    exact eq_comm
  · simp [hf]

/-- The setter `SetPermissions` reports no error exactly when the library does
not refuse the record, and it has then installed the record. -/
theorem SetPermissions_ok_iff {setters : AccountSetters} {a a1 : Account}
    {p : AccountPermissions} :
    a.SetPermissions setters p = (a1, false)
      ↔ setters.refusesPermissions a p = false ∧ a1 = a.withPermissions p := by
  unfold Account.SetPermissions
  by_cases hf : setters.refusesPermissions a p = true
  · simp [hf]
  · simp only [hf, Bool.false_eq_true, if_false, Prod.mk.injEq, and_true]
    constructor
    · intro h; exact ⟨by simp [hf], h.symm⟩
    · intro h; exact h.2.symm

/-- The setter `SetPermissions` reports an error exactly when the library
refuses the record, and the account is then as it was. -/
theorem SetPermissions_err_iff {setters : AccountSetters} {a a1 : Account}
    {p : AccountPermissions} :
    a.SetPermissions setters p = (a1, true)
      ↔ setters.refusesPermissions a p = true ∧ a1 = a := by
  unfold Account.SetPermissions
  by_cases hf : setters.refusesPermissions a p = true
  · simp only [hf, if_true, Prod.mk.injEq, and_true, true_and]
    exact eq_comm
  · simp [hf]

/-- Writing an account leaves the fault behaviour of the accessor as it was. -/
theorem store_updateFails (s : SawtoothAppState) (acct : Account) :
    (s.store acct).updateFails = s.updateFails := rfl

/-- An error of `CreateExternalAccount` leaves the state as it was, unless it is
the error of the second persist of a sponsored creation, which leaves the
sender's incremented sequence in the state. -/
theorem CreateExternalAccount_error_state (txn : CreateExternalAccountTxn)
    (sender : Address) (sapps : SawtoothAppState) (e : HandlerError)
    (h : (CreateExternalAccount txn sender sapps).1.Error = some e) :
    (CreateExternalAccount txn sender sapps).2 = sapps
      ∨ (txn.To.isSome = true ∧ e = .StateAccessError
          ∧ ∃ senderAcct, (sapps.GetAccount sender).1 = some senderAcct
              ∧ sapps.updateFails senderAcct.IncSequence = false
              ∧ (CreateExternalAccount txn sender sapps).2
                  = sapps.store senderAcct.IncSequence) := by
  revert h
  unfold CreateExternalAccount
  dsimp only
  repeat' split
  all_goals simp_all [HandlerResult.fail, UpdateAccount_ok_iff, UpdateAccount_err_iff,
    store_updateFails]

/-- An error of `CreateContractAccount` leaves the state as it was, unless it
is raised after the `CreateAccount` primitive: an engine failure, a setter of
the new account reporting an error, or the failure of a persist, which leave the
allocated account (and, when the second persist failed, the sender's incremented
sequence) in the state. -/
theorem CreateContractAccount_error_state (setters : AccountSetters) (callVm : Engine)
    (txn : CreateContractAccountTxn)
    (sender : Address) (sapps : SawtoothAppState) (e : HandlerError)
    (h : (CreateContractAccount setters callVm txn sender sapps).1.Error = some e) :
    (CreateContractAccount setters callVm txn sender sapps).2 = sapps
      ∨ ((e = .ExecutionFailed ∨ e = .SetCodeFailed ∨ e = .SetPermissionsFailed
            ∨ e = .StateAccessError)
          ∧ ∃ senderAcct, sapps.GetAccount sender = (some senderAcct, false)
              ∧ ((CreateContractAccount setters callVm txn sender sapps).2
                    = (sapps.CreateAccount senderAcct).state
                  ∨ (CreateContractAccount setters callVm txn sender sapps).2
                    = (sapps.CreateAccount senderAcct).state.store
                        (sapps.CreateAccount senderAcct).creator)) := by
  revert h
  unfold CreateContractAccount
  dsimp only
  repeat' split
  all_goals simp_all [HandlerResult.fail, UpdateAccount_ok_iff, UpdateAccount_err_iff,
    store_updateFails, SetCode_ok_iff, SetCode_err_iff, SetPermissions_ok_iff,
    SetPermissions_err_iff]

/-! ### What a successful call has done -/

/-- The bytes that `NewEvmAddrFromBytes` accepts are the 20-byte strings, and
the address is the byte string itself. -/
theorem NewEvmAddrFromBytes_some_iff {b : Bytes} {a : Address} :
    NewEvmAddrFromBytes b = some a ↔ a = b ∧ b.length = EVMADDRLEN := by
  unfold NewEvmAddrFromBytes
  by_cases hl : b.length = EVMADDRLEN
  · simp [hl, eq_comm]
  · simp [hl]

/-- A successful sponsored `CreateExternalAccount` has passed every check and
has persisted the sender with its incremented sequence and then the new
account. -/
theorem CreateExternalAccount_sponsored_success (txn : CreateExternalAccountTxn)
    (sender : Address) (sapps : SawtoothAppState) (t : Bytes) (ht : txn.To = some t)
    (h : (CreateExternalAccount txn sender sapps).1.Error = none) :
    ∃ senderAcct newPerms,
      (sapps.GetAccount sender).1 = some senderAcct
      ∧ HasPermission sapps senderAcct .CreateAccount = true
      ∧ txn.Nonce = senderAcct.sequence
      ∧ t.length = EVMADDRLEN
      ∧ sapps.GetAccount t = (none, false)
      ∧ ((txn.Permissions = none
            ∧ newPerms = { Base := senderAcct.permissions.Base.Set (PermMask.only .Root) false })
          ∨ (∃ p, txn.Permissions = some p ∧ HasPermission sapps senderAcct .Root = true
              ∧ newPerms = toVmPermissions p))
      ∧ CreateExternalAccount txn sender sapps
          = ({ Error := none
               NewAccount := some { address := t, sequence := 1, code := [],
                                    permissions := newPerms }
               ReturnValue := [], GasUsed := 0 },
             (sapps.store senderAcct.IncSequence).store
               { address := t, sequence := 1, code := [], permissions := newPerms }) := by
  revert h
  unfold CreateExternalAccount
  rw [ht]
  dsimp only
  repeat' split
  all_goals simp_all [HandlerResult.fail, UpdateAccount_ok_iff, UpdateAccount_err_iff,
    store_updateFails, NewEvmAddrFromBytes_some_iff]

/-- A successful self `CreateExternalAccount` has found the sender's address
unoccupied, has taken the permission record from the bootstrap rule or from the
Global Permission Account, and has persisted the new account. -/
theorem CreateExternalAccount_self_success (txn : CreateExternalAccountTxn)
    (sender : Address) (sapps : SawtoothAppState) (ht : txn.To = none)
    (h : (CreateExternalAccount txn sender sapps).1.Error = none) :
    ∃ newPerms,
      sapps.GetAccount sender = (none, false)
      ∧ ((sapps.GetAccount GlobalPermissionsAddress = (none, false)
            ∧ newPerms = { Base := BasePermissions.zero.Set AllPermFlags true })
          ∨ (∃ g, sapps.GetAccount GlobalPermissionsAddress = (some g, false)
              ∧ HasPermission sapps g .CreateAccount = true
              ∧ newPerms = { Base := g.permissions.Base.Set (PermMask.only .Root) false }))
      ∧ CreateExternalAccount txn sender sapps
          = ({ Error := none
               NewAccount := some { address := sender, sequence := 1, code := [],
                                    permissions := newPerms }
               ReturnValue := [], GasUsed := 0 },
             sapps.store { address := sender, sequence := 1, code := [],
                           permissions := newPerms }) := by
  revert h
  unfold CreateExternalAccount
  rw [ht]
  dsimp only
  repeat' split
  all_goals simp_all [HandlerResult.fail, UpdateAccount_ok_iff, UpdateAccount_err_iff,
    store_updateFails]

/-- A successful `MessageCall` has passed every check, has run the engine on
the receiver's code, and has issued the persist of the sender with its
incremented sequence and then the persist of the receiver as it was read. -/
theorem MessageCall_success (callVm : Engine) (txn : MessageCallTxn)
    (sender : Address) (sapps : SawtoothAppState)
    (h : (MessageCall callVm txn sender sapps).1.Error = none) :
    ∃ senderAcct receiverAcct out gasUsed,
      (sapps.GetAccount sender).1 = some senderAcct
      ∧ HasPermission sapps senderAcct .Call = true
      ∧ txn.Nonce = senderAcct.sequence
      ∧ txn.To.length = EVMADDRLEN
      ∧ sapps.GetAccount txn.To = (some receiverAcct, false)
      ∧ callVm sapps
          { caller := senderAcct, callee := some receiverAcct, code := receiverAcct.code,
            input := txn.Data, gas := txn.GasLimit, blockRef := .latest }
          = some (out, gasUsed)
      ∧ MessageCall callVm txn sender sapps
          = ({ Error := none, NewAccount := none, ReturnValue := out, GasUsed := gasUsed },
             ((sapps.UpdateAccount senderAcct.IncSequence).1.UpdateAccount receiverAcct).1) := by
  revert h
  unfold MessageCall
  dsimp only
  repeat' split
  all_goals simp_all [HandlerResult.fail, NewEvmAddrFromBytes_some_iff]

/-- A successful `SetPermissions` has passed every check, has found the
receiver (or has made up a fresh one at the global address), and has issued the
persist of the sender with its incremented sequence and then the persist of the
receiver as the setter of the permission record has left it. -/
theorem SetPermissions_success (setters : AccountSetters) (txn : SetPermissionsTxn)
    (sender : Address) (sapps : SawtoothAppState)
    (h : (SetPermissions setters txn sender sapps).1.Error = none) :
    ∃ p senderAcct receiverAcct,
      txn.Permissions = some p
      ∧ (sapps.GetAccount sender).1 = some senderAcct
      ∧ HasPermission sapps senderAcct .Root = true
      ∧ txn.Nonce = senderAcct.sequence
      ∧ txn.To.length = EVMADDRLEN
      ∧ (sapps.GetAccount txn.To = (some receiverAcct, false)
          ∨ (sapps.GetAccount txn.To = (none, false) ∧ txn.To = GlobalPermissionsAddress
              ∧ receiverAcct = { address := txn.To, sequence := 1, code := [],
                                 permissions := { Base := BasePermissions.zero } }))
      ∧ SetPermissions setters txn sender sapps
          = ({ Error := none, NewAccount := none, ReturnValue := [], GasUsed := 0 },
             ((sapps.UpdateAccount senderAcct.IncSequence).1.UpdateAccount
                (receiverAcct.SetPermissions setters (toVmPermissions p)).1).1) := by
  revert h
  unfold SetPermissions
  dsimp only
  repeat' split
  all_goals simp_all [HandlerResult.fail, NewEvmAddrFromBytes_some_iff]

/-- The ledger entry under the address of an account that has just been
written is the record of that account. -/
theorem store_entries_self (s : SawtoothAppState) (acct : Account) :
    (s.store acct).entries acct.address
      = some { sequence := acct.sequence, code := acct.code,
               permissions := acct.permissions } := by
  simp [SawtoothAppState.store]

/-- Writing an account leaves the ledger entries under every other address as
they were. -/
theorem store_entries_other (s : SawtoothAppState) (acct : Account) (a : Address)
    (h : a ≠ acct.address) : (s.store acct).entries a = s.entries a := by
  simp [SawtoothAppState.store, h]

/-- Writing an account leaves the lookup faults of the accessor as they were. -/
theorem store_getFails (s : SawtoothAppState) (acct : Account) :
    (s.store acct).getFails = s.getFails := rfl

/-- A lookup that returns an account has not failed, and the account is the
ledger entry under the address looked up. -/
theorem GetAccount_some {s : SawtoothAppState} {a : Address} {acct : Account}
    (h : (s.GetAccount a).1 = some acct) :
    s.getFails a = false ∧ acct.address = a
      ∧ s.entries a = some { sequence := acct.sequence, code := acct.code,
                             permissions := acct.permissions } := by
  unfold SawtoothAppState.GetAccount at h
  by_cases hf : s.getFails a = true
  · simp [hf] at h
  · cases hent : s.entries a with
    | none => simp [hf, hent] at h
    | some d =>
      simp [hf, hent] at h
      subst h
      simp [hf]

/-- A lookup that reports neither an account nor an error has found the address
unoccupied. -/
theorem GetAccount_absent {s : SawtoothAppState} {a : Address}
    (h : s.GetAccount a = (none, false)) : s.getFails a = false ∧ s.entries a = none := by
  unfold SawtoothAppState.GetAccount at h
  by_cases hf : s.getFails a = true
  · simp [hf] at h
  · cases hent : s.entries a with
    | none => simp [hf]
    | some d => simp [hf, hent] at h

/-- The lookup of the address of an account that has just been written returns
that account, provided lookups at that address do not fail. -/
theorem GetAccount_store_self (s : SawtoothAppState) (acct : Account)
    (hf : s.getFails acct.address = false) :
    (s.store acct).GetAccount acct.address = (some acct, false) := by
  simp [SawtoothAppState.GetAccount, SawtoothAppState.store, hf]

/-- Writing an account leaves the lookup of every other address as it was. -/
theorem GetAccount_store_other (s : SawtoothAppState) (acct : Account) (a : Address)
    (h : a ≠ acct.address) : (s.store acct).GetAccount a = s.GetAccount a := by
  simp [SawtoothAppState.GetAccount, SawtoothAppState.store, h]

/-- A persist, whether it reports an error or not, leaves the fault behaviour
of the accessor as it was. -/
theorem UpdateAccount_faults (s : SawtoothAppState) (acct : Account) :
    (s.UpdateAccount acct).1.updateFails = s.updateFails
      ∧ (s.UpdateAccount acct).1.getFails = s.getFails := by
  unfold SawtoothAppState.UpdateAccount
  split <;> exact ⟨rfl, rfl⟩

/-- A persist that the accessor accepts writes the account. -/
theorem UpdateAccount_accepted (s : SawtoothAppState) (acct : Account)
    (h : s.updateFails acct = false) : (s.UpdateAccount acct).1 = s.store acct := by
  simp [SawtoothAppState.UpdateAccount, h]

/-- A lookup that returns an account reports no error. -/
theorem GetAccount_some_pair {s : SawtoothAppState} {a : Address} {acct : Account}
    (h : (s.GetAccount a).1 = some acct) : s.GetAccount a = (some acct, false) := by
  unfold SawtoothAppState.GetAccount at h ⊢
  by_cases hf : s.getFails a = true
  · simp [hf] at h
  · simp only [hf] at h ⊢
    simp only [Bool.false_eq_true, if_false] at h ⊢
    rw [h]

/-- The run of `CreateContractAccount` when every check passes, the engine
returns `(out, g)`, the account library accepts the code and the permission
record, and the State Accessor accepts every persist: the handler succeeds with
the initialised new account and has persisted the sender and then that account. -/
theorem CreateContractAccount_run (setters : AccountSetters) (callVm : Engine)
    (txn : CreateContractAccountTxn) (sender : Address) (sapps : SawtoothAppState)
    (senderAcct : Account) (newPerms : AccountPermissions) (out : Bytes) (g : Nat)
    (hs : sapps.GetAccount sender = (some senderAcct, false))
    (hperm : HasPermission sapps senderAcct .CreateContract = true)
    (hn : txn.Nonce = senderAcct.sequence)
    (hperms : (txn.Permissions = none
                ∧ newPerms
                    = { Base := senderAcct.permissions.Base.Set (PermMask.only .Root) false })
              ∨ (∃ p, txn.Permissions = some p ∧ HasPermission sapps senderAcct .Root = true
                  ∧ newPerms = toVmPermissions p))
    (hvm : callVm (sapps.CreateAccount senderAcct).state
        { caller := (sapps.CreateAccount senderAcct).newAcct, callee := none,
          code := txn.Init, input := [], gas := txn.GasLimit, blockRef := .latest }
        = some (out, g))
    (hcode : setters.refusesCode (sapps.CreateAccount senderAcct).newAcct.IncSequence out
        = false)
    (hset : setters.refusesPermissions
        ((sapps.CreateAccount senderAcct).newAcct.IncSequence.withCode out) newPerms = false)
    (hu : ∀ a : Account, sapps.updateFails a = false) :
    CreateContractAccount setters callVm txn sender sapps
      = ({ Error := none
           NewAccount := some ((((sapps.CreateAccount senderAcct).newAcct.IncSequence).withCode
              out).withPermissions newPerms)
           ReturnValue := out, GasUsed := g },
         ((sapps.CreateAccount senderAcct).state.store
            (sapps.CreateAccount senderAcct).creator).store
           ((((sapps.CreateAccount senderAcct).newAcct.IncSequence).withCode
              out).withPermissions newPerms)) := by
  have hu1 : ∀ a : Account, (sapps.CreateAccount senderAcct).state.updateFails a = false := hu
  have hu2 : ∀ a : Account, ((sapps.CreateAccount senderAcct).state.store
      (sapps.CreateAccount senderAcct).creator).updateFails a = false := hu
  unfold CreateContractAccount
  rcases hperms with ⟨hp, hnew⟩ | ⟨p, hp, hroot, hnew⟩
  · subst hnew
    simp [hs, hperm, hn, hp, hvm, Account.SetCode, Account.SetPermissions, hcode, hset,
      SawtoothAppState.UpdateAccount, hu1, hu2]
  · subst hnew
    simp [hs, hperm, hn, hp, hroot, hvm, Account.SetCode, Account.SetPermissions, hcode, hset,
      SawtoothAppState.UpdateAccount, hu1, hu2]

/-! ### C1: atomicity -/

/-- C1, as stated, fails.  (i) `CreateContractAccount` with a failing engine
returns `ExecutionFailed`, yet the account allocated by `CreateAccount` is in
the state afterwards although its address was unoccupied before.  (ii) A
sponsored `CreateExternalAccount` whose second persist fails returns
`StateAccessError`, yet the sender's sequence read back afterwards is 1 where it
was 0 before.  (iii) `CreateContractAccount` with a supplied permission record
that the account library refuses returns the error of lines 310-318 after the
engine has succeeded, and the allocated account is again in the state. -/
theorem atomicity_counterexample :
    ((CreateContractAccount acceptingSetters failingEngine
          { Init := [], Nonce := 0, GasLimit := 0, Permissions := none } addrA
          (ledgerWith addrA 0 allPerms)).1.Error = some .ExecutionFailed
      ∧ ((ledgerWith addrA 0 allPerms).GetAccount (exampleDerive addrA 0)).1.isSome = false
      ∧ ((CreateContractAccount acceptingSetters failingEngine
          { Init := [], Nonce := 0, GasLimit := 0, Permissions := none } addrA
          (ledgerWith addrA 0 allPerms)).2.GetAccount (exampleDerive addrA 0)).1.isSome = true)
    ∧ ((CreateExternalAccount { To := some addrB, Nonce := 0, Permissions := none } addrA
          (failingUpdatesAt (ledgerWith addrA 0 allPerms) addrB)).1.Error
            = some .StateAccessError
      ∧ ((failingUpdatesAt (ledgerWith addrA 0 allPerms) addrB).GetAccount addrA).1.map
            (fun a => a.sequence) = some 0
      ∧ ((CreateExternalAccount { To := some addrB, Nonce := 0, Permissions := none } addrA
          (failingUpdatesAt (ledgerWith addrA 0 allPerms) addrB)).2.GetAccount addrA).1.map
            (fun a => a.sequence) = some 1)
    ∧ ((CreateContractAccount permissionRefusingSetters (constEngine [1, 2] 7)
          { Init := [], Nonce := 0, GasLimit := 0, Permissions := some allEvmPerms } addrA
          (ledgerWith addrA 0 allPerms)).1.Error = some .SetPermissionsFailed
      ∧ ((CreateContractAccount permissionRefusingSetters (constEngine [1, 2] 7)
          { Init := [], Nonce := 0, GasLimit := 0, Permissions := some allEvmPerms } addrA
          (ledgerWith addrA 0 allPerms)).2.GetAccount (exampleDerive addrA 0)).1.isSome
            = true) := by
  decide

/-- C1, amended: when a handler returns an error, the state after the call is
the state before it, with two exceptions that arise after the handler's first
write.  `CreateContractAccount` returning `ExecutionFailed`, `SetCodeFailed`,
`SetPermissionsFailed` or `StateAccessError` may leave the account allocated by
`CreateAccount` in the state (together with the sender's incremented sequence
when only the second persist failed); a sponsored `CreateExternalAccount`
returning `StateAccessError` may leave the sender's incremented sequence
persisted. -/
theorem error_leaves_state_unless_after_first_write (setters : AccountSetters)
    (callVm : Engine) (wrapper : SethTransaction) (sender : Address) (sapps : SawtoothAppState)
    (e : HandlerError)
    (h : (TxnHandlers setters callVm wrapper sender sapps).1.Error = some e) :
    (TxnHandlers setters callVm wrapper sender sapps).2 = sapps
      ∨ (∃ txn senderAcct, wrapper = .CREATE_CONTRACT_ACCOUNT txn
          ∧ (e = .ExecutionFailed ∨ e = .SetCodeFailed ∨ e = .SetPermissionsFailed
              ∨ e = .StateAccessError)
          ∧ sapps.GetAccount sender = (some senderAcct, false)
          ∧ ((TxnHandlers setters callVm wrapper sender sapps).2
                = (sapps.CreateAccount senderAcct).state
              ∨ (TxnHandlers setters callVm wrapper sender sapps).2
                = (sapps.CreateAccount senderAcct).state.store
                    (sapps.CreateAccount senderAcct).creator))
      ∨ (∃ txn senderAcct, wrapper = .CREATE_EXTERNAL_ACCOUNT txn
          ∧ txn.To.isSome = true ∧ e = .StateAccessError
          ∧ (sapps.GetAccount sender).1 = some senderAcct
          ∧ sapps.updateFails senderAcct.IncSequence = false
          ∧ (TxnHandlers setters callVm wrapper sender sapps).2
                = sapps.store senderAcct.IncSequence) := by
  cases wrapper with
  | CREATE_EXTERNAL_ACCOUNT txn =>
    rcases CreateExternalAccount_error_state txn sender sapps e h with h1 | ⟨h1, h2, a, h3, h4, h5⟩
    · exact Or.inl h1
    · exact Or.inr (Or.inr ⟨txn, a, rfl, h1, h2, h3, h4, h5⟩)
  | CREATE_CONTRACT_ACCOUNT txn =>
    rcases CreateContractAccount_error_state setters callVm txn sender sapps e h with
      h1 | ⟨h1, a, h2, h3⟩
    · exact Or.inl h1
    · exact Or.inr (Or.inl ⟨txn, a, rfl, h1, h2, h3⟩)
  | MESSAGE_CALL txn =>
    rcases MessageCall_error_state callVm txn sender sapps with h1 | h1
    · exact absurd h (by simp [TxnHandlers, h1])
    · exact Or.inl h1
  | SET_PERMISSIONS txn =>
    rcases SetPermissions_error_state setters txn sender sapps with h1 | h1
    · exact absurd h (by simp [TxnHandlers, h1])
    · exact Or.inl h1
  | READ_ONLY_MESSAGE_CALL txn =>
    exact Or.inl (ReadOnlyMessageCall_state callVm txn sender sapps)

/-- The amended C1 at a concrete input: a `MessageCall` with a wrong nonce is
rejected and leaves the ledger as it was. -/
theorem error_leaves_state_unless_after_first_write_witness :
    (TxnHandlers acceptingSetters failingEngine
        (.MESSAGE_CALL { To := addrA, Nonce := 7, Data := [], GasLimit := 0 }) addrA
        (ledgerWith addrA 0 allPerms)).1.Error = some .NonceMismatch
    ∧ ((TxnHandlers acceptingSetters failingEngine
        (.MESSAGE_CALL { To := addrA, Nonce := 7, Data := [], GasLimit := 0 }) addrA
        (ledgerWith addrA 0 allPerms)).2 = ledgerWith addrA 0 allPerms
      ∨ (∃ txn senderAcct,
          SethTransaction.MESSAGE_CALL { To := addrA, Nonce := 7, Data := [], GasLimit := 0 }
            = .CREATE_CONTRACT_ACCOUNT txn
          ∧ (HandlerError.NonceMismatch = .ExecutionFailed
              ∨ HandlerError.NonceMismatch = .SetCodeFailed
              ∨ HandlerError.NonceMismatch = .SetPermissionsFailed
              ∨ HandlerError.NonceMismatch = .StateAccessError)
          ∧ (ledgerWith addrA 0 allPerms).GetAccount addrA = (some senderAcct, false)
          ∧ ((TxnHandlers acceptingSetters failingEngine
                (.MESSAGE_CALL { To := addrA, Nonce := 7, Data := [], GasLimit := 0 }) addrA
                (ledgerWith addrA 0 allPerms)).2
                = ((ledgerWith addrA 0 allPerms).CreateAccount senderAcct).state
              ∨ (TxnHandlers acceptingSetters failingEngine
                (.MESSAGE_CALL { To := addrA, Nonce := 7, Data := [], GasLimit := 0 }) addrA
                (ledgerWith addrA 0 allPerms)).2
                = ((ledgerWith addrA 0 allPerms).CreateAccount senderAcct).state.store
                    ((ledgerWith addrA 0 allPerms).CreateAccount senderAcct).creator))
      ∨ (∃ txn senderAcct,
          SethTransaction.MESSAGE_CALL { To := addrA, Nonce := 7, Data := [], GasLimit := 0 }
            = .CREATE_EXTERNAL_ACCOUNT txn
          ∧ txn.To.isSome = true ∧ HandlerError.NonceMismatch = .StateAccessError
          ∧ ((ledgerWith addrA 0 allPerms).GetAccount addrA).1 = some senderAcct
          ∧ (ledgerWith addrA 0 allPerms).updateFails senderAcct.IncSequence = false
          ∧ (TxnHandlers acceptingSetters failingEngine
                (.MESSAGE_CALL { To := addrA, Nonce := 7, Data := [], GasLimit := 0 }) addrA
                (ledgerWith addrA 0 allPerms)).2
                = (ledgerWith addrA 0 allPerms).store senderAcct.IncSequence)) :=
  ⟨by decide,
   error_leaves_state_unless_after_first_write acceptingSetters failingEngine
     (.MESSAGE_CALL { To := addrA, Nonce := 7, Data := [], GasLimit := 0 }) addrA
     (ledgerWith addrA 0 allPerms) .NonceMismatch (by decide)⟩

/-! ### C2: nonce monotonicity -/

/-- C2 at its failing input: the only account of the ledger, at `addrA` with
sequence 0 and every permission, sends a `MessageCall` to its own address with
nonce 0; the call succeeds and the sequence read back afterwards is still 0.
The same holds for a `SetPermissions` whose target is the sender's own address.
In both handlers the persist of the receiver, read before the increment,
overwrites the persist of the sender. -/
theorem self_target_keeps_sequence :
    ((ledgerWith addrA 0 allPerms).GetAccount addrA).1.map (fun a => a.sequence) = some 0
    ∧ (MessageCall (constEngine [] 0) { To := addrA, Nonce := 0, Data := [], GasLimit := 0 }
          addrA (ledgerWith addrA 0 allPerms)).1.Error = none
    ∧ ((MessageCall (constEngine [] 0) { To := addrA, Nonce := 0, Data := [], GasLimit := 0 }
          addrA (ledgerWith addrA 0 allPerms)).2.GetAccount addrA).1.map
            (fun a => a.sequence) = some 0
    ∧ (SetPermissions acceptingSetters
          { To := addrA, Nonce := 0, Permissions := some allEvmPerms }
          addrA (ledgerWith addrA 0 allPerms)).1.Error = none
    ∧ ((SetPermissions acceptingSetters
          { To := addrA, Nonce := 0, Permissions := some allEvmPerms }
          addrA (ledgerWith addrA 0 allPerms)).2.GetAccount addrA).1.map
            (fun a => a.sequence) = some 0 := by
  decide

/-- The extent of the defect in `MessageCall`: whenever a successful call
targets the sender's own address (the State Accessor accepting the persists at
that address), the lookup of the sender returns afterwards exactly what it
returned before, so the sequence has not advanced. -/
theorem MessageCall_self_target_restores_sender (callVm : Engine) (txn : MessageCallTxn)
    (sender : Address) (sapps : SawtoothAppState) (hto : txn.To = sender)
    (h : (MessageCall callVm txn sender sapps).1.Error = none)
    (hu : ∀ a : Account, a.address = sender → sapps.updateFails a = false) :
    (MessageCall callVm txn sender sapps).2.GetAccount sender = sapps.GetAccount sender := by
  obtain ⟨senderAcct, receiverAcct, out, gasUsed, hs, -, -, -, hr, -, heq⟩ :=
    MessageCall_success callVm txn sender sapps h
  rw [hto] at hr
  obtain ⟨hgf, haddr, -⟩ := GetAccount_some hs
  have hraddr : receiverAcct.address = sender := (GetAccount_some (by rw [hr])).2.1
  rw [heq]
  dsimp only
  rw [UpdateAccount_accepted sapps senderAcct.IncSequence (hu senderAcct.IncSequence haddr)]
  rw [UpdateAccount_accepted (sapps.store senderAcct.IncSequence) receiverAcct
    (hu receiverAcct hraddr)]
  have hself := GetAccount_store_self (sapps.store senderAcct.IncSequence) receiverAcct
  rw [hraddr] at hself
  rw [hself hgf, hr]

/-- Away from the defect: a successful `MessageCall` whose target is not the
sender's own address (the State Accessor accepting the persist of the sender)
leaves the sender with its sequence incremented by 1. -/
theorem MessageCall_other_target_advances_sender (callVm : Engine) (txn : MessageCallTxn)
    (sender : Address) (sapps : SawtoothAppState) (hto : txn.To ≠ sender)
    (h : (MessageCall callVm txn sender sapps).1.Error = none)
    (hu : ∀ a : Account, a.address = sender → sapps.updateFails a = false) :
    ∃ a a', sapps.GetAccount sender = (some a, false)
      ∧ (MessageCall callVm txn sender sapps).2.GetAccount sender = (some a', false)
      ∧ a'.sequence = a.sequence + 1 := by
  obtain ⟨senderAcct, receiverAcct, out, gasUsed, hs, -, -, -, hr, -, heq⟩ :=
    MessageCall_success callVm txn sender sapps h
  obtain ⟨hgf, haddr, -⟩ := GetAccount_some hs
  have hraddr : receiverAcct.address = txn.To := (GetAccount_some (by rw [hr])).2.1
  refine ⟨senderAcct, senderAcct.IncSequence, GetAccount_some_pair hs, ?_, rfl⟩
  rw [heq]
  dsimp only
  rw [UpdateAccount_accepted sapps senderAcct.IncSequence (hu senderAcct.IncSequence haddr)]
  have hother : ∀ s' : SawtoothAppState,
      (s'.UpdateAccount receiverAcct).1.GetAccount sender = s'.GetAccount sender := by
    intro s'
    unfold SawtoothAppState.UpdateAccount
    split
    · rfl
    · exact GetAccount_store_other _ _ _ (by rw [hraddr]; exact fun h' => hto h'.symm)
  rw [hother]
  have hself := GetAccount_store_self sapps senderAcct.IncSequence
  rw [show senderAcct.IncSequence.address = sender from haddr] at hself
  exact hself hgf

/-! ### C3: nonce rejection -/

/-- C3, as stated, fails: the sender exists with sequence 0 and the declared
nonce is 5, but the sender's record denies `CreateAccount`; the sponsored
creation is rejected as `PermissionDenied`, not as `NonceMismatch`. -/
theorem nonce_rejection_counterexample :
    ((ledgerWith addrA 0 noCreatePerms).GetAccount addrA).1.map (fun a => a.sequence) = some 0
    ∧ (CreateExternalAccount { To := some addrB, Nonce := 5, Permissions := none } addrA
        (ledgerWith addrA 0 noCreatePerms)).1.Error = some .PermissionDenied
    ∧ (CreateExternalAccount { To := some addrB, Nonce := 5, Permissions := none } addrA
        (ledgerWith addrA 0 noCreatePerms)).1.Error ≠ some .NonceMismatch := by
  decide

/-- C3, amended: when the sender account exists and holds the permission the
handler asks for (`CreateAccount` for a sponsored `CreateExternalAccount`,
`CreateContract` for `CreateContractAccount`, `Call` for `MessageCall`, `Root`
for `SetPermissions` with a permission record present), a declared nonce that
differs from the sender's sequence is rejected as `NonceMismatch` and the state
is unchanged. -/
theorem nonce_mismatch_rejected (setters : AccountSetters) (callVm : Engine)
    (sender : Address)
    (sapps : SawtoothAppState) (senderAcct : Account)
    (hs : sapps.GetAccount sender = (some senderAcct, false)) :
    (∀ (txn : CreateExternalAccountTxn) (t : Bytes), txn.To = some t →
        HasPermission sapps senderAcct .CreateAccount = true →
        txn.Nonce ≠ senderAcct.sequence →
        CreateExternalAccount txn sender sapps = (HandlerResult.fail .NonceMismatch, sapps))
    ∧ (∀ (txn : CreateContractAccountTxn),
        HasPermission sapps senderAcct .CreateContract = true →
        txn.Nonce ≠ senderAcct.sequence →
        CreateContractAccount setters callVm txn sender sapps
          = (HandlerResult.fail .NonceMismatch, sapps))
    ∧ (∀ (txn : MessageCallTxn),
        HasPermission sapps senderAcct .Call = true →
        txn.Nonce ≠ senderAcct.sequence →
        MessageCall callVm txn sender sapps = (HandlerResult.fail .NonceMismatch, sapps))
    ∧ (∀ (txn : SetPermissionsTxn) (p : EvmPermissions), txn.Permissions = some p →
        HasPermission sapps senderAcct .Root = true →
        txn.Nonce ≠ senderAcct.sequence →
        SetPermissions setters txn sender sapps = (HandlerResult.fail .NonceMismatch, sapps)) := by
  refine ⟨?_, ?_, ?_, ?_⟩
  · intro txn t ht hp hn
    unfold CreateExternalAccount
    rw [ht]
    simp [hs, hp, hn]
  · intro txn hp hn
    unfold CreateContractAccount
    simp [hs, hp, hn]
  · intro txn hp hn
    unfold MessageCall
    simp [hs, hp, hn]
  · intro txn p hperm hp hn
    unfold SetPermissions
    rw [hperm]
    simp [hs, hp, hn]

/-- The amended C3 at a concrete input: the sender at `addrA` has sequence 0 and
every permission, and each of the four transactions declares nonce 5. -/
theorem nonce_mismatch_rejected_witness :
    (ledgerWith addrA 0 allPerms).GetAccount addrA
        = (some { address := addrA, sequence := 0, code := [], permissions := allPerms }, false)
    ∧ CreateExternalAccount { To := some addrB, Nonce := 5, Permissions := none } addrA
        (ledgerWith addrA 0 allPerms)
        = (HandlerResult.fail .NonceMismatch, ledgerWith addrA 0 allPerms)
    ∧ CreateContractAccount acceptingSetters failingEngine
        { Init := [], Nonce := 5, GasLimit := 0, Permissions := none } addrA
        (ledgerWith addrA 0 allPerms)
        = (HandlerResult.fail .NonceMismatch, ledgerWith addrA 0 allPerms)
    ∧ MessageCall failingEngine { To := addrB, Nonce := 5, Data := [], GasLimit := 0 } addrA
        (ledgerWith addrA 0 allPerms)
        = (HandlerResult.fail .NonceMismatch, ledgerWith addrA 0 allPerms)
    ∧ SetPermissions acceptingSetters
          { To := addrB, Nonce := 5, Permissions := some allEvmPerms } addrA
        (ledgerWith addrA 0 allPerms)
        = (HandlerResult.fail .NonceMismatch, ledgerWith addrA 0 allPerms) :=
  ⟨rfl,
   (nonce_mismatch_rejected acceptingSetters failingEngine addrA
       (ledgerWith addrA 0 allPerms) _ rfl).1
     _ addrB rfl (by decide) (by decide),
   (nonce_mismatch_rejected acceptingSetters failingEngine addrA
       (ledgerWith addrA 0 allPerms) _ rfl).2.1
     _ (by decide) (by decide),
   (nonce_mismatch_rejected acceptingSetters failingEngine addrA
       (ledgerWith addrA 0 allPerms) _ rfl).2.2.1
     _ (by decide) (by decide),
   (nonce_mismatch_rejected acceptingSetters failingEngine addrA
       (ledgerWith addrA 0 allPerms) _ rfl).2.2.2
     _ allEvmPerms rfl (by decide) (by decide)⟩

/-! ### C4: permission inheritance -/

/-- C5: when the Global Permission Account is absent and the sender's address
is unoccupied, `CreateExternalAccount` with no target address succeeds (the
State Accessor accepting the persist of the new account); afterwards the State
Accessor holds at the sender's address an account with sequence 1 and every
capability flag explicitly granted, and the returned `NewAccount` is that
account. -/
theorem self_creation_bootstrap (txn : CreateExternalAccountTxn) (sender : Address)
    (sapps : SawtoothAppState) (ht : txn.To = none)
    (hs : sapps.GetAccount sender = (none, false))
    (hg : sapps.GetAccount GlobalPermissionsAddress = (none, false))
    (hu : ∀ a : Account, a.address = sender → sapps.updateFails a = false) :
    ∃ n, (CreateExternalAccount txn sender sapps).1.Error = none
      ∧ (CreateExternalAccount txn sender sapps).1.NewAccount = some n
      ∧ (CreateExternalAccount txn sender sapps).2.GetAccount sender = (some n, false)
      ∧ n.address = sender
      ∧ n.sequence = 1
      ∧ ∀ f, n.permissions.Base.SetBit f = true ∧ n.permissions.Base.Perms f = true := by
  refine ⟨{ address := sender, sequence := 1, code := [],
            permissions := { Base := BasePermissions.zero.Set AllPermFlags true } }, ?_⟩
  have hgf := (GetAccount_absent hs).1
  have hrun : CreateExternalAccount txn sender sapps
      = ({ Error := none
           NewAccount := some { address := sender, sequence := 1, code := [],
                                permissions :=
                                  { Base := BasePermissions.zero.Set AllPermFlags true } }
           ReturnValue := [], GasUsed := 0 },
         sapps.store { address := sender, sequence := 1, code := [],
                       permissions :=
                         { Base := BasePermissions.zero.Set AllPermFlags true } }) := by
    unfold CreateExternalAccount
    rw [ht]
    simp [hs, hg, SawtoothAppState.UpdateAccount, hu]
  rw [hrun]
  refine ⟨rfl, rfl, ?_, rfl, rfl, ?_⟩
  · exact GetAccount_store_self sapps _ hgf
  · intro f
    simp [BasePermissions.Set, BasePermissions.zero, AllPermFlags]

/-- C5 at a concrete input: `addrA` creates itself on the empty ledger. -/
theorem self_creation_bootstrap_witness :
    ∃ n, (CreateExternalAccount { To := none, Nonce := 0, Permissions := none } addrA
            emptyLedger).1.Error = none
      ∧ (CreateExternalAccount { To := none, Nonce := 0, Permissions := none } addrA
            emptyLedger).1.NewAccount = some n
      ∧ (CreateExternalAccount { To := none, Nonce := 0, Permissions := none } addrA
            emptyLedger).2.GetAccount addrA = (some n, false)
      ∧ n.address = addrA
      ∧ n.sequence = 1
      ∧ ∀ f, n.permissions.Base.SetBit f = true ∧ n.permissions.Base.Perms f = true :=
  self_creation_bootstrap { To := none, Nonce := 0, Permissions := none } addrA emptyLedger
    rfl rfl rfl (fun _ _ => rfl)

/-! ### C6: self-creation gating -/

/-- C6: when the Global Permission Account exists and its record does not grant
`CreateAccount` (the flag is unset in its set-mask, or its value is false),
`CreateExternalAccount` with no target address from an address that has no
account returns `PermissionDenied` and leaves the state unchanged. -/
theorem self_creation_gated (txn : CreateExternalAccountTxn) (sender : Address)
    (sapps : SawtoothAppState) (g : Account) (ht : txn.To = none)
    (hs : sapps.GetAccount sender = (none, false))
    (hg : sapps.GetAccount GlobalPermissionsAddress = (some g, false))
    (hden : g.permissions.Base.SetBit .CreateAccount = false
              ∨ g.permissions.Base.Perms .CreateAccount = false) :
    (CreateExternalAccount txn sender sapps).1.Error = some .PermissionDenied
      ∧ (CreateExternalAccount txn sender sapps).2 = sapps := by
  have hperm : HasPermission sapps g .CreateAccount = false := by
    unfold HasPermission
    rcases hden with h | h
    · simp [h, hg]
    · by_cases hb : g.permissions.Base.SetBit .CreateAccount = true
      · simp [hb, h]
      · simp [hb, hg]
  unfold CreateExternalAccount
  rw [ht]
  simp [hs, hg, hperm, HandlerResult.fail]

/-- C6 at a concrete input: the Global Permission Account explicitly denies
`CreateAccount` and `addrA` tries to create itself. -/
theorem self_creation_gated_witness :
    (CreateExternalAccount { To := none, Nonce := 0, Permissions := none } addrA
        (ledgerWith GlobalPermissionsAddress 1 noCreatePerms)).1.Error = some .PermissionDenied
    ∧ (CreateExternalAccount { To := none, Nonce := 0, Permissions := none } addrA
        (ledgerWith GlobalPermissionsAddress 1 noCreatePerms)).2
        = ledgerWith GlobalPermissionsAddress 1 noCreatePerms :=
  self_creation_gated { To := none, Nonce := 0, Permissions := none } addrA
    (ledgerWith GlobalPermissionsAddress 1 noCreatePerms)
    { address := GlobalPermissionsAddress, sequence := 1, code := [],
      permissions := noCreatePerms }
    rfl rfl rfl (Or.inr rfl)

/-! ### C7: round-trip permission overwrite -/

/-- C7 at its failing inputs.  (i) The ledger holds `addrA` (every permission)
and `addrB` (whose `Root` is explicitly false), and the account library refuses
the record `allEvmPerms`; `addrA` sets the record of `addrB` to `allEvmPerms`.
The handler discards the error of `receiverAcct.SetPermissions` (line 605) and
returns success, and `Root` read back at `addrB` is still false where the
record carried by the transaction has it true.  (ii) The State Accessor rejects
every persist at `addrA`, and `addrA` (every permission) sets the record of its
own address to `noRootEvmPerms`: the handler returns success, and `Root` read
back at `addrA` is still true where the record carried by the transaction has it
false. -/
theorem set_permissions_overwrite_lost :
    ((toVmPermissions allEvmPerms).Base.Perms .Root = true
      ∧ (SetPermissions permissionRefusingSetters
            { To := addrB, Nonce := 0, Permissions := some allEvmPerms } addrA
            (ledgerWithTwo addrA 0 allPerms addrB 1 noRootPerms)).1.Error = none
      ∧ ((SetPermissions permissionRefusingSetters
            { To := addrB, Nonce := 0, Permissions := some allEvmPerms } addrA
            (ledgerWithTwo addrA 0 allPerms addrB 1 noRootPerms)).2.GetAccount addrB).1.map
              (fun a => a.permissions.Base.Perms .Root) = some false)
    ∧ ((toVmPermissions noRootEvmPerms).Base.Perms .Root = false
      ∧ (SetPermissions acceptingSetters
            { To := addrA, Nonce := 0, Permissions := some noRootEvmPerms } addrA
            (failingUpdatesAt (ledgerWith addrA 0 allPerms) addrA)).1.Error = none
      ∧ ((SetPermissions acceptingSetters
            { To := addrA, Nonce := 0, Permissions := some noRootEvmPerms } addrA
            (failingUpdatesAt (ledgerWith addrA 0 allPerms) addrA)).2.GetAccount addrA).1.map
              (fun a => a.permissions.Base.Perms .Root) = some true) := by
  decide

/-- Away from the two defects: after a successful `SetPermissions` carrying the
permission record `R`, when the account library accepts the record for the
target and the State Accessor accepts the persist of the target, reading the
target address yields an account whose permission record is exactly the
conversion of `R`, whatever the target's previous record.  The target may be the
sender's own address or a previously absent Global Permission Account. -/
theorem SetPermissions_installs_accepted_record (setters : AccountSetters)
    (txn : SetPermissionsTxn) (sender : Address)
    (sapps : SawtoothAppState) (R : EvmPermissions) (hp : txn.Permissions = some R)
    (h : (SetPermissions setters txn sender sapps).1.Error = none)
    (hset : ∀ a : Account, a.address = txn.To →
        setters.refusesPermissions a (toVmPermissions R) = false)
    (hu : ∀ a : Account, a.address = txn.To → sapps.updateFails a = false) :
    ∃ acct, (SetPermissions setters txn sender sapps).2.GetAccount txn.To = (some acct, false)
      ∧ acct.permissions = toVmPermissions R := by
  obtain ⟨p, senderAcct, receiverAcct, hp', -, -, -, -, hrecv, heq⟩ :=
    SetPermissions_success setters txn sender sapps h
  rw [hp] at hp'
  cases hp'
  have haddr : receiverAcct.address = txn.To := by
    rcases hrecv with hr | ⟨-, -, hr⟩
    · exact (GetAccount_some (by rw [hr])).2.1
    · rw [hr]
  have hgf : sapps.getFails txn.To = false := by
    rcases hrecv with hr | ⟨hr, -, -⟩
    · exact (GetAccount_some (s := sapps) (a := txn.To) (by rw [hr])).1
    · exact (GetAccount_absent hr).1
  have hsetter : (receiverAcct.SetPermissions setters (toVmPermissions R)).1
      = receiverAcct.withPermissions (toVmPermissions R) := by
    simp [Account.SetPermissions, hset receiverAcct haddr]
  have hfaults := UpdateAccount_faults sapps senderAcct.IncSequence
  have hacc : (sapps.UpdateAccount senderAcct.IncSequence).1.updateFails
      (receiverAcct.withPermissions (toVmPermissions R)) = false := by
    rw [hfaults.1]
    exact hu _ haddr
  rw [heq]
  dsimp only
  rw [hsetter, UpdateAccount_accepted _ _ hacc]
  refine ⟨receiverAcct.withPermissions (toVmPermissions R), ?_, rfl⟩
  have hself := GetAccount_store_self (sapps.UpdateAccount senderAcct.IncSequence).1
    (receiverAcct.withPermissions (toVmPermissions R))
  have haddr' : (receiverAcct.withPermissions (toVmPermissions R)).address = txn.To := haddr
  rw [haddr'] at hself
  exact hself (by rw [hfaults.2]; exact hgf)

/-! ### C8: read-only purity -/

/-- C8: whatever the transaction, the sender, the pre-state and the outcome of
the engine, `ReadOnlyMessageCall` hands back the state it was given: the handler
writes nothing, so the ledger entry (sequence, code and permission record) under
every address and the result of every lookup are the same after the call as
before it. -/
theorem read_only_call_is_pure (callVm : Engine) (txn : ReadOnlyMessageCallTxn)
    (sender : Address) (sapps : SawtoothAppState) :
    (ReadOnlyMessageCall callVm txn sender sapps).2 = sapps
      ∧ (∀ addr, (ReadOnlyMessageCall callVm txn sender sapps).2.entries addr
                  = sapps.entries addr)
      ∧ (∀ addr, (ReadOnlyMessageCall callVm txn sender sapps).2.GetAccount addr
                  = sapps.GetAccount addr) := by
  rw [ReadOnlyMessageCall_state]
  exact ⟨rfl, fun _ => rfl, fun _ => rfl⟩

/-! ### C9: contract construction -/

/-- C10: after a successful `CreateExternalAccount` with target address `t`
from sender `a`, the lookup of every address other than `a` and `t` returns what
it returned before; the account stored at `t` has address `t`, sequence 1 and
empty code; and the account stored at `a` is the sender's account as it was,
with the same address, code and permission record, and its sequence incremented
by 1. -/
theorem sponsored_creation_frame (txn : CreateExternalAccountTxn) (sender : Address)
    (sapps : SawtoothAppState) (t : Bytes) (ht : txn.To = some t)
    (h : (CreateExternalAccount txn sender sapps).1.Error = none) :
    (∀ x, x ≠ sender → x ≠ t →
        (CreateExternalAccount txn sender sapps).2.GetAccount x = sapps.GetAccount x)
    ∧ (∃ n, (CreateExternalAccount txn sender sapps).2.GetAccount t = (some n, false)
        ∧ n.address = t ∧ n.sequence = 1 ∧ n.code = [])
    ∧ (∃ a a', sapps.GetAccount sender = (some a, false)
        ∧ (CreateExternalAccount txn sender sapps).2.GetAccount sender = (some a', false)
        ∧ a'.address = a.address
        ∧ a'.sequence = a.sequence + 1
        ∧ a'.code = a.code
        ∧ a'.permissions = a.permissions) := by
  obtain ⟨senderAcct, newPerms, hs, -, -, -, hnew, -, heq⟩ :=
    CreateExternalAccount_sponsored_success txn sender sapps t ht h
  obtain ⟨hgf, haddr, hent⟩ := GetAccount_some hs
  obtain ⟨hgft, hentt⟩ := GetAccount_absent hnew
  have hne : sender ≠ t := by
    intro hst
    rw [hst, hentt] at hent
    cases hent
  rw [heq]
  refine ⟨?_, ?_, ?_⟩
  · intro x hxs hxt
    rw [GetAccount_store_other _ _ _ hxt, GetAccount_store_other _ _ _ (by
      show x ≠ senderAcct.IncSequence.address
      rw [show senderAcct.IncSequence.address = sender from haddr]
      exact hxs)]
  · exact ⟨_, GetAccount_store_self (sapps.store senderAcct.IncSequence)
      { address := t, sequence := 1, code := [], permissions := newPerms } hgft, rfl, rfl, rfl⟩
  · refine ⟨senderAcct, senderAcct.IncSequence, GetAccount_some_pair hs, ?_, rfl, rfl, rfl, rfl⟩
    rw [GetAccount_store_other _ _ _ hne]
    have hself := GetAccount_store_self sapps senderAcct.IncSequence
    rw [show senderAcct.IncSequence.address = sender from haddr] at hself
    exact hself hgf

/-- C10 at a concrete input: the account at `addrA` sponsors `addrB`. -/
theorem sponsored_creation_frame_witness :
    (∀ x, x ≠ addrA → x ≠ addrB →
        (CreateExternalAccount { To := some addrB, Nonce := 0, Permissions := none } addrA
          (ledgerWith addrA 0 sponsorPerms)).2.GetAccount x
          = (ledgerWith addrA 0 sponsorPerms).GetAccount x)
    ∧ (∃ n, (CreateExternalAccount { To := some addrB, Nonce := 0, Permissions := none } addrA
          (ledgerWith addrA 0 sponsorPerms)).2.GetAccount addrB = (some n, false)
        ∧ n.address = addrB ∧ n.sequence = 1 ∧ n.code = [])
    ∧ (∃ a a', (ledgerWith addrA 0 sponsorPerms).GetAccount addrA = (some a, false)
        ∧ (CreateExternalAccount { To := some addrB, Nonce := 0, Permissions := none } addrA
          (ledgerWith addrA 0 sponsorPerms)).2.GetAccount addrA = (some a', false)
        ∧ a'.address = a.address
        ∧ a'.sequence = a.sequence + 1
        ∧ a'.code = a.code
        ∧ a'.permissions = a.permissions) :=
  sponsored_creation_frame { To := some addrB, Nonce := 0, Permissions := none } addrA
    (ledgerWith addrA 0 sponsorPerms) addrB rfl (by decide)

/-! ### C11: explicit permissions require Root -/

/-- C11, as stated, fails for contracts.  The sender at `addrA` exists with
sequence 0, holds `CreateContract` and `Root`, the declared nonce is 0, the
engine succeeds and the transaction supplies the record `allEvmPerms`, which the
account library refuses.  `CreateContractAccount` then returns the error of
lines 310-318 instead of storing the supplied record: the account left under the
derived address has `Root` off where the supplied record has it on. -/
theorem explicit_permissions_refused_counterexample :
    ((ledgerWith addrA 0 allPerms).GetAccount addrA).1.map (fun a => a.sequence) = some 0
    ∧ HasPermission (ledgerWith addrA 0 allPerms)
        { address := addrA, sequence := 0, code := [], permissions := allPerms }
        .CreateContract = true
    ∧ HasPermission (ledgerWith addrA 0 allPerms)
        { address := addrA, sequence := 0, code := [], permissions := allPerms } .Root = true
    ∧ (toVmPermissions allEvmPerms).Base.Perms .Root = true
    ∧ (CreateContractAccount permissionRefusingSetters (constEngine [3] 5)
          { Init := [9], Nonce := 0, GasLimit := 10, Permissions := some allEvmPerms } addrA
          (ledgerWith addrA 0 allPerms)).1.Error = some .SetPermissionsFailed
    ∧ ((CreateContractAccount permissionRefusingSetters (constEngine [3] 5)
          { Init := [9], Nonce := 0, GasLimit := 10, Permissions := some allEvmPerms } addrA
          (ledgerWith addrA 0 allPerms)).2.GetAccount (exampleDerive addrA 0)).1.map
            (fun a => a.permissions.Base.Perms .Root) = some false := by
  decide

/-- C11, amended: the transaction supplies the permission record `p`, the sender
exists, holds the creation permission and the nonce matches (and, for the
sponsored creation, the target is well-formed and unoccupied).  If the sender
does not hold `Root`, sponsored `CreateExternalAccount` and
`CreateContractAccount` return `PermissionDenied` and leave the state unchanged.
If the sender holds `Root`, then, with a State Accessor that accepts the
persists and, for contracts, an engine that succeeds and an account library that
accepts the engine's output as code and `p` as permission record, the handler
succeeds and the permission record stored for the new account is the conversion
of `p` as supplied, `Root` included. -/
theorem explicit_permissions_require_root (setters : AccountSetters) (callVm : Engine)
    (sender : Address)
    (sapps : SawtoothAppState) (senderAcct : Account) (p : EvmPermissions)
    (hs : sapps.GetAccount sender = (some senderAcct, false)) :
    (∀ (txn : CreateExternalAccountTxn) (t : Bytes),
        txn.To = some t → txn.Permissions = some p →
        HasPermission sapps senderAcct .CreateAccount = true →
        txn.Nonce = senderAcct.sequence →
        t.length = EVMADDRLEN → sapps.GetAccount t = (none, false) →
        (HasPermission sapps senderAcct .Root = false →
            CreateExternalAccount txn sender sapps
              = (HandlerResult.fail .PermissionDenied, sapps))
        ∧ (HasPermission sapps senderAcct .Root = true →
            (∀ a : Account, sapps.updateFails a = false) →
            (CreateExternalAccount txn sender sapps).1.Error = none
            ∧ ∃ d, (CreateExternalAccount txn sender sapps).2.entries t = some d
                ∧ d.permissions = toVmPermissions p))
    ∧ (∀ (txn : CreateContractAccountTxn),
        txn.Permissions = some p →
        HasPermission sapps senderAcct .CreateContract = true →
        txn.Nonce = senderAcct.sequence →
        (HasPermission sapps senderAcct .Root = false →
            CreateContractAccount setters callVm txn sender sapps
              = (HandlerResult.fail .PermissionDenied, sapps))
        ∧ (HasPermission sapps senderAcct .Root = true →
            ∀ (out : Bytes) (g : Nat),
            callVm (sapps.CreateAccount senderAcct).state
                { caller := (sapps.CreateAccount senderAcct).newAcct, callee := none,
                  code := txn.Init, input := [], gas := txn.GasLimit, blockRef := .latest }
              = some (out, g) →
            (∀ a : Account, setters.refusesCode a out = false) →
            (∀ a : Account, setters.refusesPermissions a (toVmPermissions p) = false) →
            (∀ a : Account, sapps.updateFails a = false) →
            (CreateContractAccount setters callVm txn sender sapps).1.Error = none
            ∧ ∃ d, (CreateContractAccount setters callVm txn sender sapps).2.entries
                    (sapps.deriveAddress sender senderAcct.sequence) = some d
                ∧ d.permissions = toVmPermissions p)) := by
  have haddr : senderAcct.address = sender := (GetAccount_some (by rw [hs])).2.1
  refine ⟨?_, ?_⟩
  · intro txn t ht hp hca hn hlen hfree
    refine ⟨?_, ?_⟩
    · intro hroot
      unfold CreateExternalAccount
      rw [ht]
      simp [hs, hca, hn, NewEvmAddrFromBytes, hlen, hfree, hp, hroot]
    · intro hroot hu
      have hrun : CreateExternalAccount txn sender sapps
          = ({ Error := none
               NewAccount := some { address := t, sequence := 1, code := [],
                                    permissions := toVmPermissions p }
               ReturnValue := [], GasUsed := 0 },
             (sapps.store senderAcct.IncSequence).store
               { address := t, sequence := 1, code := [],
                 permissions := toVmPermissions p }) := by
        unfold CreateExternalAccount
        rw [ht]
        simp [hs, hca, hn, NewEvmAddrFromBytes, hlen, hfree, hp, hroot,
          SawtoothAppState.UpdateAccount, hu]
        simp [SawtoothAppState.store, hu]
      rw [hrun]
      exact ⟨rfl, _, store_entries_self (sapps.store senderAcct.IncSequence)
        { address := t, sequence := 1, code := [], permissions := toVmPermissions p }, rfl⟩
  · intro txn hp hcc hn
    refine ⟨?_, ?_⟩
    · intro hroot
      unfold CreateContractAccount
      simp [hs, hcc, hn, hp, hroot]
    · intro hroot out g hvm hcode hset hu
      have hrun : CreateContractAccount setters callVm txn sender sapps
          = ({ Error := none
               NewAccount := some ((((sapps.CreateAccount senderAcct).newAcct.IncSequence).withCode
                  out).withPermissions (toVmPermissions p))
               ReturnValue := out, GasUsed := g },
             ((sapps.CreateAccount senderAcct).state.store
                (sapps.CreateAccount senderAcct).creator).store
               ((((sapps.CreateAccount senderAcct).newAcct.IncSequence).withCode
                  out).withPermissions (toVmPermissions p))) :=
        CreateContractAccount_run setters callVm txn sender sapps senderAcct _ out g hs hcc
          hn (Or.inr ⟨p, hp, hroot, rfl⟩) hvm (hcode _) (hset _) hu
      rw [hrun]
      have hstored := store_entries_self
        ((sapps.CreateAccount senderAcct).state.store (sapps.CreateAccount senderAcct).creator)
        ((((sapps.CreateAccount senderAcct).newAcct.IncSequence).withCode out).withPermissions
          (toVmPermissions p))
      have hnaddr : ((((sapps.CreateAccount senderAcct).newAcct.IncSequence).withCode
          out).withPermissions (toVmPermissions p)).address
          = sapps.deriveAddress sender senderAcct.sequence := by
        simp [SawtoothAppState.CreateAccount, Account.IncSequence, Account.withCode,
          Account.withPermissions, haddr]
      rw [hnaddr] at hstored
      exact ⟨rfl, _, hstored, rfl⟩

/-- The amended C11 at concrete inputs: the sender at `addrA` supplies the
record `allEvmPerms`; without `Root` both creations are denied, with `Root` (and
an account library that refuses nothing) the stored record is the supplied
one. -/
theorem explicit_permissions_require_root_witness :
    (CreateExternalAccount { To := some addrB, Nonce := 0, Permissions := some allEvmPerms }
        addrA (ledgerWith addrA 0 noRootPerms)
        = (HandlerResult.fail .PermissionDenied, ledgerWith addrA 0 noRootPerms))
    ∧ ((CreateExternalAccount { To := some addrB, Nonce := 0, Permissions := some allEvmPerms }
          addrA (ledgerWith addrA 0 allPerms)).1.Error = none
        ∧ ∃ d, (CreateExternalAccount
                  { To := some addrB, Nonce := 0, Permissions := some allEvmPerms }
                  addrA (ledgerWith addrA 0 allPerms)).2.entries addrB = some d
            ∧ d.permissions = toVmPermissions allEvmPerms)
    ∧ (CreateContractAccount acceptingSetters (constEngine [1, 2] 7)
        { Init := [9], Nonce := 0, GasLimit := 10, Permissions := some allEvmPerms }
        addrA (ledgerWith addrA 0 noRootPerms)
        = (HandlerResult.fail .PermissionDenied, ledgerWith addrA 0 noRootPerms))
    ∧ ((CreateContractAccount acceptingSetters (constEngine [1, 2] 7)
          { Init := [9], Nonce := 0, GasLimit := 10, Permissions := some allEvmPerms }
          addrA (ledgerWith addrA 0 allPerms)).1.Error = none
        ∧ ∃ d, (CreateContractAccount acceptingSetters (constEngine [1, 2] 7)
                  { Init := [9], Nonce := 0, GasLimit := 10, Permissions := some allEvmPerms }
                  addrA (ledgerWith addrA 0 allPerms)).2.entries
                    ((ledgerWith addrA 0 allPerms).deriveAddress addrA 0) = some d
            ∧ d.permissions = toVmPermissions allEvmPerms) :=
  ⟨((explicit_permissions_require_root acceptingSetters (constEngine [1, 2] 7) addrA
        (ledgerWith addrA 0 noRootPerms)
        { address := addrA, sequence := 0, code := [], permissions := noRootPerms }
        allEvmPerms rfl).1
      { To := some addrB, Nonce := 0, Permissions := some allEvmPerms } addrB
      rfl rfl (by decide) rfl (by decide) rfl).1 (by decide),
   ((explicit_permissions_require_root acceptingSetters (constEngine [1, 2] 7) addrA
        (ledgerWith addrA 0 allPerms)
        { address := addrA, sequence := 0, code := [], permissions := allPerms }
        allEvmPerms rfl).1
      { To := some addrB, Nonce := 0, Permissions := some allEvmPerms } addrB
      rfl rfl (by decide) rfl (by decide) rfl).2 (by decide) (fun _ => rfl),
   ((explicit_permissions_require_root acceptingSetters (constEngine [1, 2] 7) addrA
        (ledgerWith addrA 0 noRootPerms)
        { address := addrA, sequence := 0, code := [], permissions := noRootPerms }
        allEvmPerms rfl).2
      { Init := [9], Nonce := 0, GasLimit := 10, Permissions := some allEvmPerms }
      rfl (by decide) rfl).1 (by decide),
   ((explicit_permissions_require_root acceptingSetters (constEngine [1, 2] 7) addrA
        (ledgerWith addrA 0 allPerms)
        { address := addrA, sequence := 0, code := [], permissions := allPerms }
        allEvmPerms rfl).2
      { Init := [9], Nonce := 0, GasLimit := 10, Permissions := some allEvmPerms }
      rfl (by decide) rfl).2 (by decide) [1, 2] 7 rfl (fun _ => rfl) (fun _ => rfl)
      (fun _ => rfl)⟩

/-! ### C12: MissingPermissions comes first -/

/-- C12: a `SetPermissions` transaction without a permission record is rejected
as `MissingPermissions` with the state unchanged, whatever the sender, the
declared nonce, the target bytes and the pre-state.  No account is looked up:
the result is the same for every State Accessor, also for one whose every lookup
fails or that holds no account at all, and for every account library. -/
theorem missing_permissions_first (setters : AccountSetters) (txn : SetPermissionsTxn)
    (sender : Address) (sapps : SawtoothAppState) (hp : txn.Permissions = none) :
    SetPermissions setters txn sender sapps = (HandlerResult.fail .MissingPermissions, sapps)
    ∧ ∀ (setters' : AccountSetters) (sender' : Address) (sapps' : SawtoothAppState),
        (SetPermissions setters' txn sender' sapps').1
          = (SetPermissions setters txn sender sapps).1 := by
  have hrun : ∀ (l : AccountSetters) (x : Address) (s : SawtoothAppState),
      SetPermissions l txn x s = (HandlerResult.fail .MissingPermissions, s) := by
    intro l x s
    unfold SetPermissions
    rw [hp]
  refine ⟨hrun setters sender sapps, ?_⟩
  intro setters' sender' sapps'
  rw [hrun setters' sender' sapps', hrun setters sender sapps]

/-- C12 at a concrete input: a sender without an account, a wrong nonce and a
malformed target on the empty ledger. -/
theorem missing_permissions_first_witness :
    SetPermissions acceptingSetters { To := [1, 2, 3], Nonce := 9, Permissions := none } addrA
        emptyLedger
      = (HandlerResult.fail .MissingPermissions, emptyLedger)
    ∧ ∀ (setters' : AccountSetters) (sender' : Address) (sapps' : SawtoothAppState),
        (SetPermissions setters' { To := [1, 2, 3], Nonce := 9, Permissions := none }
            sender' sapps').1
          = (SetPermissions acceptingSetters
              { To := [1, 2, 3], Nonce := 9, Permissions := none } addrA emptyLedger).1 :=
  missing_permissions_first acceptingSetters
    { To := [1, 2, 3], Nonce := 9, Permissions := none } addrA emptyLedger rfl

/-! ### C13: auto-vivification only at the global address -/

/-- C13 at its failing inputs.  The root account at `addrA` (sequence 0) sends a
`SetPermissions` with nonce 0 and the record `allEvmPerms` to the Global
Permission Account address, which is well-formed and unoccupied.  (i) The State
Accessor rejects every persist at that address: the handler discards the error
(line 608) and returns success, and afterwards the address is still unoccupied.
(ii) The account library refuses the record: the handler discards the error of
`receiverAcct.SetPermissions` (line 605) and returns success, and the account
held afterwards at the address has sequence 1 but `Root` off, where the supplied
record has it on. -/
theorem global_vivification_lost :
    (GlobalPermissionsAddress.length = EVMADDRLEN
      ∧ ((failingUpdatesAt (ledgerWith addrA 0 allPerms)
            GlobalPermissionsAddress).GetAccount GlobalPermissionsAddress).1.isSome = false
      ∧ (SetPermissions acceptingSetters
            { To := GlobalPermissionsAddress, Nonce := 0, Permissions := some allEvmPerms }
            addrA
            (failingUpdatesAt (ledgerWith addrA 0 allPerms)
              GlobalPermissionsAddress)).1.Error = none
      ∧ ((SetPermissions acceptingSetters
            { To := GlobalPermissionsAddress, Nonce := 0, Permissions := some allEvmPerms }
            addrA
            (failingUpdatesAt (ledgerWith addrA 0 allPerms)
              GlobalPermissionsAddress)).2.GetAccount GlobalPermissionsAddress).1.isSome
          = false)
    ∧ ((toVmPermissions allEvmPerms).Base.Perms .Root = true
      ∧ (SetPermissions permissionRefusingSetters
            { To := GlobalPermissionsAddress, Nonce := 0, Permissions := some allEvmPerms }
            addrA (ledgerWith addrA 0 allPerms)).1.Error = none
      ∧ ((SetPermissions permissionRefusingSetters
            { To := GlobalPermissionsAddress, Nonce := 0, Permissions := some allEvmPerms }
            addrA (ledgerWith addrA 0 allPerms)).2.GetAccount GlobalPermissionsAddress).1.map
              (fun a => (a.sequence, a.permissions.Base.Perms .Root)) = some (1, false)) := by
  decide

/-- Away from the two defects: a `SetPermissions` transaction carries the record
`p` and passes the sender-existence, `Root` and nonce checks, and its
well-formed target address has no account.  If the target is not the Global
Permission Account address the handler returns `ReceiverNotFound` and the state
is unchanged.  If it is, the handler returns success; and when the account
library accepts the record and the State Accessor accepts the persist of the
target, the State Accessor holds at the target an account with sequence 1, empty
code and the conversion of `p` as its permission record. -/
theorem SetPermissions_missing_receiver (setters : AccountSetters) (txn : SetPermissionsTxn)
    (sender : Address)
    (sapps : SawtoothAppState) (senderAcct : Account) (p : EvmPermissions)
    (hp : txn.Permissions = some p)
    (hs : sapps.GetAccount sender = (some senderAcct, false))
    (hroot : HasPermission sapps senderAcct .Root = true)
    (hn : txn.Nonce = senderAcct.sequence)
    (hlen : txn.To.length = EVMADDRLEN)
    (habs : sapps.GetAccount txn.To = (none, false)) :
    (txn.To ≠ GlobalPermissionsAddress →
        SetPermissions setters txn sender sapps = (HandlerResult.fail .ReceiverNotFound, sapps))
    ∧ (txn.To = GlobalPermissionsAddress →
        (SetPermissions setters txn sender sapps).1.Error = none
        ∧ ((∀ a : Account, setters.refusesPermissions a (toVmPermissions p) = false) →
            (∀ a : Account, a.address = txn.To → sapps.updateFails a = false) →
            (SetPermissions setters txn sender sapps).2.GetAccount txn.To
              = (some { address := txn.To, sequence := 1, code := [],
                        permissions := toVmPermissions p }, false))) := by
  refine ⟨?_, ?_⟩
  · intro hne
    unfold SetPermissions
    rw [hp]
    simp [hs, hroot, hn, NewEvmAddrFromBytes, hlen, habs, hne]
  · intro hglobal
    have hrun : SetPermissions setters txn sender sapps
        = ({ Error := none, NewAccount := none, ReturnValue := [], GasUsed := 0 },
           ((sapps.UpdateAccount senderAcct.IncSequence).1.UpdateAccount
              (Account.SetPermissions
                { address := txn.To, sequence := 1, code := [],
                  permissions := { Base := BasePermissions.zero } }
                setters (toVmPermissions p)).1).1) := by
      unfold SetPermissions
      rw [hp]
      simp [hs, hroot, hn, NewEvmAddrFromBytes, hlen, habs, if_pos hglobal]
    rw [hrun]
    refine ⟨rfl, ?_⟩
    intro hset hu
    have hsetter : (Account.SetPermissions
        { address := txn.To, sequence := 1, code := [],
          permissions := { Base := BasePermissions.zero } }
        setters (toVmPermissions p)).1
        = { address := txn.To, sequence := 1, code := [],
            permissions := toVmPermissions p } := by
      simp [Account.SetPermissions, hset, Account.withPermissions]
    have hfaults := UpdateAccount_faults sapps senderAcct.IncSequence
    have hacc : (sapps.UpdateAccount senderAcct.IncSequence).1.updateFails
        { address := txn.To, sequence := 1, code := [],
          permissions := toVmPermissions p } = false := by
      rw [hfaults.1]
      exact hu _ rfl
    dsimp only
    rw [hsetter, UpdateAccount_accepted _ _ hacc]
    exact GetAccount_store_self (sapps.UpdateAccount senderAcct.IncSequence).1
      { address := txn.To, sequence := 1, code := [], permissions := toVmPermissions p }
      (by rw [hfaults.2]; exact (GetAccount_absent habs).1)

/-- A sponsored `CreateExternalAccount` whose target address is occupied
returns the state it was given. -/
theorem CreateExternalAccount_occupied_state (txn : CreateExternalAccountTxn)
    (sender : Address) (sapps : SawtoothAppState) (t : Bytes) (ht : txn.To = some t)
    (hent : sapps.entries t ≠ none) :
    (CreateExternalAccount txn sender sapps).2 = sapps := by
  have hneg : sapps.GetAccount t ≠ (none, false) := fun h => hent (GetAccount_absent h).2
  unfold CreateExternalAccount
  rw [ht]
  dsimp only
  repeat' split
  all_goals simp_all [NewEvmAddrFromBytes_some_iff]

/-! ### C14: accounts are created at most once -/

/-- C14: if `CreateExternalAccount` succeeds, the address of the returned
`NewAccount` (the target address in sponsored mode, the sender's address in
self mode) held no account in the pre-state.  Equivalently, when that address is
occupied the handler returns an error and the state, the existing account
included, is unchanged; the error is `AccountExists` when the preceding checks
pass. -/
theorem external_account_created_once (txn : CreateExternalAccountTxn) (sender : Address)
    (sapps : SawtoothAppState) :
    ((CreateExternalAccount txn sender sapps).1.Error = none →
        ∃ n, (CreateExternalAccount txn sender sapps).1.NewAccount = some n
          ∧ (n.address = match txn.To with
                         | some t => t
                         | none => sender)
          ∧ sapps.entries n.address = none
          ∧ sapps.GetAccount n.address = (none, false))
    ∧ (∀ t, txn.To = some t → sapps.entries t ≠ none →
        (CreateExternalAccount txn sender sapps).1.Error ≠ none
        ∧ (CreateExternalAccount txn sender sapps).2 = sapps)
    ∧ (txn.To = none → sapps.entries sender ≠ none →
        (CreateExternalAccount txn sender sapps).1.Error ≠ none
        ∧ (CreateExternalAccount txn sender sapps).2 = sapps)
    ∧ (∀ t senderAcct existing, txn.To = some t →
        (sapps.GetAccount sender).1 = some senderAcct →
        HasPermission sapps senderAcct .CreateAccount = true →
        txn.Nonce = senderAcct.sequence →
        t.length = EVMADDRLEN →
        (sapps.GetAccount t).1 = some existing →
        CreateExternalAccount txn sender sapps = (HandlerResult.fail .AccountExists, sapps))
    ∧ (∀ existing, txn.To = none →
        sapps.GetAccount sender = (some existing, false) →
        CreateExternalAccount txn sender sapps = (HandlerResult.fail .AccountExists, sapps)) := by
  have hsucc : (CreateExternalAccount txn sender sapps).1.Error = none →
      ∃ n, (CreateExternalAccount txn sender sapps).1.NewAccount = some n
        ∧ (n.address = match txn.To with
                       | some t => t
                       | none => sender)
        ∧ sapps.entries n.address = none
        ∧ sapps.GetAccount n.address = (none, false) := by
    intro h
    cases hto : txn.To with
    | some t =>
      obtain ⟨senderAcct, newPerms, -, -, -, -, hfree, -, heq⟩ :=
        CreateExternalAccount_sponsored_success txn sender sapps t hto h
      rw [heq]
      exact ⟨_, rfl, rfl, (GetAccount_absent hfree).2, hfree⟩
    | none =>
      obtain ⟨newPerms, hfree, -, heq⟩ :=
        CreateExternalAccount_self_success txn sender sapps hto h
      rw [heq]
      exact ⟨_, rfl, rfl, (GetAccount_absent hfree).2, hfree⟩
  have hocc : ∀ a, (a = match txn.To with
                        | some t => t
                        | none => sender) → sapps.entries a ≠ none →
      (CreateExternalAccount txn sender sapps).1.Error ≠ none
      ∧ (CreateExternalAccount txn sender sapps).2 = sapps := by
    intro a ha hent
    have herr : (CreateExternalAccount txn sender sapps).1.Error ≠ none := by
      intro h
      obtain ⟨n, -, hn, hnone, -⟩ := hsucc h
      rw [hn, ← ha] at hnone
      exact hent hnone
    refine ⟨herr, ?_⟩
    cases he : (CreateExternalAccount txn sender sapps).1.Error with
    | none => exact absurd he herr
    | some e =>
      rcases CreateExternalAccount_error_state txn sender sapps e he with h1 | ⟨h1, -, -⟩
      · exact h1
      · cases hto : txn.To with
        | none => simp [hto] at h1
        | some t =>
          rw [hto] at ha
          have hat : a = t := ha
          rw [hat] at hent
          exact CreateExternalAccount_occupied_state txn sender sapps t hto hent
  refine ⟨hsucc, ?_, ?_, ?_, ?_⟩
  · intro t ht hent
    exact hocc t (by rw [ht]) hent
  · intro ht hent
    exact hocc sender (by rw [ht]) hent
  · intro t senderAcct existing ht hs hca hn hlen hex
    have hex' := GetAccount_some_pair hex
    unfold CreateExternalAccount
    rw [ht]
    simp [hs, hca, hn, NewEvmAddrFromBytes, hlen, hex']
  · intro existing ht hex
    unfold CreateExternalAccount
    rw [ht]
    simp [hex]

/-- C14 at concrete inputs: `addrA` sponsors the unoccupied `addrB` and the
address of the new account was free; with `addrB` occupied the same transaction
is rejected as `AccountExists` and the ledger is unchanged. -/
theorem external_account_created_once_witness :
    (∃ n, (CreateExternalAccount { To := some addrB, Nonce := 0, Permissions := none } addrA
              (ledgerWith addrA 0 allPerms)).1.NewAccount = some n
        ∧ n.address = addrB
        ∧ (ledgerWith addrA 0 allPerms).entries n.address = none
        ∧ (ledgerWith addrA 0 allPerms).GetAccount n.address = (none, false))
    ∧ ((CreateExternalAccount { To := some addrB, Nonce := 0, Permissions := none } addrA
            (ledgerWithTwo addrA 0 allPerms addrB 1 allPerms)).1.Error ≠ none
        ∧ (CreateExternalAccount { To := some addrB, Nonce := 0, Permissions := none } addrA
            (ledgerWithTwo addrA 0 allPerms addrB 1 allPerms)).2
            = ledgerWithTwo addrA 0 allPerms addrB 1 allPerms)
    ∧ CreateExternalAccount { To := some addrB, Nonce := 0, Permissions := none } addrA
          (ledgerWithTwo addrA 0 allPerms addrB 1 allPerms)
        = (HandlerResult.fail .AccountExists, ledgerWithTwo addrA 0 allPerms addrB 1 allPerms) :=
  ⟨(external_account_created_once { To := some addrB, Nonce := 0, Permissions := none } addrA
      (ledgerWith addrA 0 allPerms)).1 (by decide),
   (external_account_created_once { To := some addrB, Nonce := 0, Permissions := none } addrA
      (ledgerWithTwo addrA 0 allPerms addrB 1 allPerms)).2.1 addrB rfl
      (by simp [ledgerWithTwo, addrA, addrB]),
   (external_account_created_once { To := some addrB, Nonce := 0, Permissions := none } addrA
      (ledgerWithTwo addrA 0 allPerms addrB 1 allPerms)).2.2.2.1 addrB
      { address := addrA, sequence := 0, code := [], permissions := allPerms }
      { address := addrB, sequence := 1, code := [], permissions := allPerms }
      rfl rfl (by decide) rfl (by decide) rfl⟩

/-! ### C15: persist failures are reported -/

/-- C15 at its failing inputs.  (i) The State Accessor rejects every persist at
`addrA`; `addrA` (sequence 0, every permission) sends a `MessageCall` to
`addrB`: the `UpdateAccount` of the sender returns an error, yet the handler
returns a success payload, and the sender's sequence read back is still 0.
(ii) The State Accessor rejects every persist at `addrB`; `addrA` sets the
record of `addrB` (whose `Root` is explicitly false) to the all-granting record:
the `UpdateAccount` of the target returns an error, yet the handler returns
success, and `Root` read back at `addrB` is still false. -/
theorem swallowed_persist_errors :
    ((failingUpdatesAt (ledgerWithTwo addrA 0 allPerms addrB 1 allPerms) addrA).UpdateAccount
          { address := addrA, sequence := 1, code := [], permissions := allPerms }).2 = true
    ∧ (MessageCall (constEngine [] 0) { To := addrB, Nonce := 0, Data := [], GasLimit := 0 }
          addrA
          (failingUpdatesAt (ledgerWithTwo addrA 0 allPerms addrB 1 allPerms) addrA)).1.Error
        = none
    ∧ ((MessageCall (constEngine [] 0) { To := addrB, Nonce := 0, Data := [], GasLimit := 0 }
          addrA
          (failingUpdatesAt (ledgerWithTwo addrA 0 allPerms addrB 1 allPerms)
            addrA)).2.GetAccount addrA).1.map (fun a => a.sequence) = some 0
    ∧ ((failingUpdatesAt (ledgerWithTwo addrA 0 allPerms addrB 1 noRootPerms)
          addrB).UpdateAccount
          { address := addrB, sequence := 1, code := [],
            permissions := toVmPermissions allEvmPerms }).2 = true
    ∧ (SetPermissions acceptingSetters
          { To := addrB, Nonce := 0, Permissions := some allEvmPerms } addrA
          (failingUpdatesAt (ledgerWithTwo addrA 0 allPerms addrB 1 noRootPerms) addrB)).1.Error
        = none
    ∧ ((SetPermissions acceptingSetters
          { To := addrB, Nonce := 0, Permissions := some allEvmPerms } addrA
          (failingUpdatesAt (ledgerWithTwo addrA 0 allPerms addrB 1 noRootPerms)
            addrB)).2.GetAccount addrB).1.map (fun a => a.permissions.Base.Perms .Root)
        = some false := by
  decide

/-! ### C16: ReadOnlyMessageCall and MessageCall share their preconditions -/

/-- A `ReadOnlyMessageCall` and a `MessageCall` with the same target, call data
and gas limit, the latter declaring the sender's current sequence as its nonce:
either both are rejected with one and the same error whatever the engine, or the
sender and the receiver exist and, for every engine, the result of each is what
the engine returns for one call, the two calls differing in the block reference
only. -/
theorem message_calls_decompose (txnR : ReadOnlyMessageCallTxn) (txnM : MessageCallTxn)
    (sender : Address) (sapps : SawtoothAppState)
    (hto : txnM.To = txnR.To) (hdata : txnM.Data = txnR.Data)
    (hgas : txnM.GasLimit = txnR.GasLimit)
    (hn : ∀ senderAcct, (sapps.GetAccount sender).1 = some senderAcct →
            txnM.Nonce = senderAcct.sequence) :
    (∃ c, ∀ callVm : Engine,
        ReadOnlyMessageCall callVm txnR sender sapps = (HandlerResult.fail c, sapps)
        ∧ MessageCall callVm txnM sender sapps = (HandlerResult.fail c, sapps))
    ∨ (∃ senderAcct receiverAcct,
        (sapps.GetAccount sender).1 = some senderAcct
        ∧ sapps.GetAccount txnR.To = (some receiverAcct, false)
        ∧ ∀ callVm : Engine,
            (ReadOnlyMessageCall callVm txnR sender sapps).1
              = (match callVm sapps
                    { caller := senderAcct, callee := some receiverAcct,
                      code := receiverAcct.code, input := txnR.Data, gas := txnR.GasLimit,
                      blockRef := .number txnR.BlockNum } with
                | none => HandlerResult.fail .ExecutionFailed
                | some (out, gasUsed) =>
                  { Error := none, NewAccount := none, ReturnValue := out,
                    GasUsed := gasUsed })
            ∧ (MessageCall callVm txnM sender sapps).1
              = (match callVm sapps
                    { caller := senderAcct, callee := some receiverAcct,
                      code := receiverAcct.code, input := txnR.Data, gas := txnR.GasLimit,
                      blockRef := .latest } with
                | none => HandlerResult.fail .ExecutionFailed
                | some (out, gasUsed) =>
                  { Error := none, NewAccount := none, ReturnValue := out,
                    GasUsed := gasUsed })) := by
  cases hs : (sapps.GetAccount sender).1 with
  | none =>
    refine Or.inl ⟨.SenderNotFound, fun callVm => ⟨?_, ?_⟩⟩
    · unfold ReadOnlyMessageCall; simp [hs]
    · unfold MessageCall; simp [hs]
  | some senderAcct =>
    have hnonce := hn senderAcct hs
    by_cases hperm : HasPermission sapps senderAcct .Call = true
    · cases haddr : NewEvmAddrFromBytes txnR.To with
      | none =>
        refine Or.inl ⟨.AddressMalformed, fun callVm => ⟨?_, ?_⟩⟩
        · unfold ReadOnlyMessageCall; simp [hs, hperm, haddr]
        · unfold MessageCall; simp [hs, hperm, hnonce, hto, haddr]
      | some receiver =>
        have hrecv : receiver = txnR.To := (NewEvmAddrFromBytes_some_iff.mp haddr).1
        subst hrecv
        rcases hr : sapps.GetAccount txnR.To with ⟨acct, err⟩
        cases err with
        | true =>
          refine Or.inl ⟨.StateAccessError, fun callVm => ⟨?_, ?_⟩⟩
          · unfold ReadOnlyMessageCall; simp [hs, hperm, haddr, hr]
          · unfold MessageCall; simp [hs, hperm, hnonce, hto, haddr, hr]
        | false =>
          cases acct with
          | none =>
            refine Or.inl ⟨.ReceiverNotFound, fun callVm => ⟨?_, ?_⟩⟩
            · unfold ReadOnlyMessageCall; simp [hs, hperm, haddr, hr]
            · unfold MessageCall; simp [hs, hperm, hnonce, hto, haddr, hr]
          | some receiverAcct =>
            refine Or.inr ⟨senderAcct, receiverAcct, rfl, rfl, fun callVm => ⟨?_, ?_⟩⟩
            · unfold ReadOnlyMessageCall
              simp only [hs, hperm, haddr, hr, Bool.not_true, Bool.false_eq_true, if_false]
              cases callVm sapps
                { caller := senderAcct, callee := some receiverAcct,
                  code := receiverAcct.code, input := txnR.Data, gas := txnR.GasLimit,
                  blockRef := .number txnR.BlockNum } <;> rfl
            · unfold MessageCall
              simp only [hs, hperm, hnonce, hto, hdata, hgas, haddr, hr, Bool.not_true,
                Bool.false_eq_true, if_false, ne_eq, not_true_eq_false]
              cases callVm sapps
                { caller := senderAcct, callee := some receiverAcct,
                  code := receiverAcct.code, input := txnR.Data, gas := txnR.GasLimit,
                  blockRef := .latest } <;> rfl
    · refine Or.inl ⟨.PermissionDenied, fun callVm => ⟨?_, ?_⟩⟩
      · unfold ReadOnlyMessageCall; simp [hs, hperm]
      · unfold MessageCall; simp [hs, hperm]

/-- C16: take a `ReadOnlyMessageCall` and a `MessageCall` with the same target
bytes, call data and gas limit, the `MessageCall` declaring the sender's current
sequence as its nonce.  A call is rejected before the engine is invoked, with
classification `c`, when its result is the error `c` whatever the engine.  The
`ReadOnlyMessageCall` is so rejected with `c` if and only if the `MessageCall`
is; and when it is not rejected, the sender and the receiver exist and each
result is what the engine returns for one call on the pre-state, with the sender
as caller, the receiver as callee, the receiver's stored code, the call data and
the gas limit, the two calls differing only in the block reference (the block of
the transaction against the latest one). -/
theorem read_only_call_preconditions (txnR : ReadOnlyMessageCallTxn) (txnM : MessageCallTxn)
    (sender : Address) (sapps : SawtoothAppState)
    (hto : txnM.To = txnR.To) (hdata : txnM.Data = txnR.Data)
    (hgas : txnM.GasLimit = txnR.GasLimit)
    (hn : ∀ senderAcct, (sapps.GetAccount sender).1 = some senderAcct →
            txnM.Nonce = senderAcct.sequence) :
    (∀ c, (∀ callVm : Engine, (ReadOnlyMessageCall callVm txnR sender sapps).1.Error = some c)
          ↔ (∀ callVm : Engine, (MessageCall callVm txnM sender sapps).1.Error = some c))
    ∧ ((¬ ∃ c, ∀ callVm : Engine,
            (ReadOnlyMessageCall callVm txnR sender sapps).1.Error = some c) →
        ∃ senderAcct receiverAcct,
          (sapps.GetAccount sender).1 = some senderAcct
          ∧ sapps.GetAccount txnR.To = (some receiverAcct, false)
          ∧ ∀ callVm : Engine,
              (ReadOnlyMessageCall callVm txnR sender sapps).1
                = (match callVm sapps
                      { caller := senderAcct, callee := some receiverAcct,
                        code := receiverAcct.code, input := txnR.Data, gas := txnR.GasLimit,
                        blockRef := .number txnR.BlockNum } with
                  | none => HandlerResult.fail .ExecutionFailed
                  | some (out, gasUsed) =>
                    { Error := none, NewAccount := none, ReturnValue := out,
                      GasUsed := gasUsed })
              ∧ (MessageCall callVm txnM sender sapps).1
                = (match callVm sapps
                      { caller := senderAcct, callee := some receiverAcct,
                        code := receiverAcct.code, input := txnR.Data, gas := txnR.GasLimit,
                        blockRef := .latest } with
                  | none => HandlerResult.fail .ExecutionFailed
                  | some (out, gasUsed) =>
                    { Error := none, NewAccount := none, ReturnValue := out,
                      GasUsed := gasUsed })) := by
  rcases message_calls_decompose txnR txnM sender sapps hto hdata hgas hn with
    ⟨c0, h⟩ | ⟨senderAcct, receiverAcct, hs, hr, h⟩
  · refine ⟨?_, ?_⟩
    · intro c
      constructor
      · intro hR callVm
        have h1 := hR failingEngine
        rw [(h failingEngine).1] at h1
        rw [(h callVm).2]
        exact h1
      · intro hM callVm
        have h1 := hM failingEngine
        rw [(h failingEngine).2] at h1
        rw [(h callVm).1]
        exact h1
    · intro hnot
      exact absurd ⟨c0, fun callVm => by rw [(h callVm).1]; rfl⟩ hnot
  · refine ⟨?_, ?_⟩
    · intro c
      constructor
      · intro hR
        have h1 := hR (constEngine [] 0)
        rw [(h (constEngine [] 0)).1] at h1
        simp [constEngine] at h1
      · intro hM
        have h1 := hM (constEngine [] 0)
        rw [(h (constEngine [] 0)).2] at h1
        simp [constEngine] at h1
    · intro _
      exact ⟨senderAcct, receiverAcct, hs, hr, h⟩

/-- C16 at a concrete input: `addrA` (sequence 0) calls `addrB`, read-only at
block 3 and as a `MessageCall` with nonce 0. -/
theorem read_only_call_preconditions_witness :
    (∀ c, (∀ callVm : Engine,
            (ReadOnlyMessageCall callVm { To := addrB, Data := [5], GasLimit := 10, BlockNum := 3 }
              addrA (ledgerWithTwo addrA 0 allPerms addrB 1 allPerms)).1.Error = some c)
          ↔ (∀ callVm : Engine,
            (MessageCall callVm { To := addrB, Nonce := 0, Data := [5], GasLimit := 10 }
              addrA (ledgerWithTwo addrA 0 allPerms addrB 1 allPerms)).1.Error = some c))
    ∧ ((¬ ∃ c, ∀ callVm : Engine,
            (ReadOnlyMessageCall callVm { To := addrB, Data := [5], GasLimit := 10, BlockNum := 3 }
              addrA (ledgerWithTwo addrA 0 allPerms addrB 1 allPerms)).1.Error = some c) →
        ∃ senderAcct receiverAcct,
          ((ledgerWithTwo addrA 0 allPerms addrB 1 allPerms).GetAccount addrA).1
              = some senderAcct
          ∧ (ledgerWithTwo addrA 0 allPerms addrB 1 allPerms).GetAccount addrB
              = (some receiverAcct, false)
          ∧ ∀ callVm : Engine,
              (ReadOnlyMessageCall callVm { To := addrB, Data := [5], GasLimit := 10, BlockNum := 3 }
                  addrA (ledgerWithTwo addrA 0 allPerms addrB 1 allPerms)).1
                = (match callVm (ledgerWithTwo addrA 0 allPerms addrB 1 allPerms)
                      { caller := senderAcct, callee := some receiverAcct,
                        code := receiverAcct.code, input := [5], gas := 10,
                        blockRef := .number 3 } with
                  | none => HandlerResult.fail .ExecutionFailed
                  | some (out, gasUsed) =>
                    { Error := none, NewAccount := none, ReturnValue := out,
                      GasUsed := gasUsed })
              ∧ (MessageCall callVm { To := addrB, Nonce := 0, Data := [5], GasLimit := 10 }
                  addrA (ledgerWithTwo addrA 0 allPerms addrB 1 allPerms)).1
                = (match callVm (ledgerWithTwo addrA 0 allPerms addrB 1 allPerms)
                      { caller := senderAcct, callee := some receiverAcct,
                        code := receiverAcct.code, input := [5], gas := 10,
                        blockRef := .latest } with
                  | none => HandlerResult.fail .ExecutionFailed
                  | some (out, gasUsed) =>
                    { Error := none, NewAccount := none, ReturnValue := out,
                      GasUsed := gasUsed })) :=
  read_only_call_preconditions { To := addrB, Data := [5], GasLimit := 10, BlockNum := 3 }
    { To := addrB, Nonce := 0, Data := [5], GasLimit := 10 } addrA
    (ledgerWithTwo addrA 0 allPerms addrB 1 allPerms) rfl rfl rfl
    (fun senderAcct h => by
      have h' : some ({ address := addrA, sequence := 0, code := [], permissions := allPerms }
          : Account) = some senderAcct := h
      cases h'
      rfl)

/-! ### C17: validation precedence in MessageCall -/

/-- C17: `MessageCall` resolves its checks in the order sender, permission,
nonce, target address, receiver, each error masking the later ones, and in each
of these cases the result is the same for every engine, which is not invoked.
If the lookup of the sender returns no account the result is `SenderNotFound`;
otherwise, if the sender does not hold `Call`, it is `PermissionDenied`;
otherwise, if the declared nonce differs from the sender's sequence, it is
`NonceMismatch`; otherwise, if the target bytes are not a well-formed address, it
is `AddressMalformed`; otherwise, if the target has no account, it is
`ReceiverNotFound`.  The state is unchanged every time. -/
theorem message_call_validation_precedence (callVm : Engine) (txn : MessageCallTxn)
    (sender : Address) (sapps : SawtoothAppState) :
    ((sapps.GetAccount sender).1 = none →
        MessageCall callVm txn sender sapps = (HandlerResult.fail .SenderNotFound, sapps))
    ∧ (∀ senderAcct, (sapps.GetAccount sender).1 = some senderAcct →
        (HasPermission sapps senderAcct .Call = false →
            MessageCall callVm txn sender sapps
              = (HandlerResult.fail .PermissionDenied, sapps))
        ∧ (HasPermission sapps senderAcct .Call = true →
            (txn.Nonce ≠ senderAcct.sequence →
                MessageCall callVm txn sender sapps
                  = (HandlerResult.fail .NonceMismatch, sapps))
            ∧ (txn.Nonce = senderAcct.sequence →
                (txn.To.length ≠ EVMADDRLEN →
                    MessageCall callVm txn sender sapps
                      = (HandlerResult.fail .AddressMalformed, sapps))
                ∧ (txn.To.length = EVMADDRLEN →
                    sapps.GetAccount txn.To = (none, false) →
                    MessageCall callVm txn sender sapps
                      = (HandlerResult.fail .ReceiverNotFound, sapps))))) := by
  refine ⟨?_, ?_⟩
  · intro hs
    unfold MessageCall
    simp [hs]
  · intro senderAcct hs
    refine ⟨?_, ?_⟩
    · intro hperm
      unfold MessageCall
      simp [hs, hperm]
    · intro hperm
      refine ⟨?_, ?_⟩
      · intro hn
        unfold MessageCall
        simp [hs, hperm, hn]
      · intro hn
        refine ⟨?_, ?_⟩
        · intro hlen
          unfold MessageCall
          simp [hs, hperm, hn, NewEvmAddrFromBytes, hlen]
        · intro hlen habs
          unfold MessageCall
          simp [hs, hperm, hn, NewEvmAddrFromBytes, hlen, habs]

/-- C17 at concrete inputs, one per check, on ledgers whose only account is at
`addrA` with sequence 0: an unknown sender; a sender whose record denies `Call`;
a wrong nonce; a three-byte target; an unoccupied target. -/
theorem message_call_validation_precedence_witness :
    MessageCall (constEngine [] 0) { To := [1, 2, 3], Nonce := 9, Data := [], GasLimit := 0 }
        addrB (ledgerWith addrA 0 allPerms)
      = (HandlerResult.fail .SenderNotFound, ledgerWith addrA 0 allPerms)
    ∧ MessageCall (constEngine [] 0) { To := [1, 2, 3], Nonce := 9, Data := [], GasLimit := 0 }
        addrA (ledgerWith addrA 0 noCallPerms)
      = (HandlerResult.fail .PermissionDenied, ledgerWith addrA 0 noCallPerms)
    ∧ MessageCall (constEngine [] 0) { To := [1, 2, 3], Nonce := 9, Data := [], GasLimit := 0 }
        addrA (ledgerWith addrA 0 allPerms)
      = (HandlerResult.fail .NonceMismatch, ledgerWith addrA 0 allPerms)
    ∧ MessageCall (constEngine [] 0) { To := [1, 2, 3], Nonce := 0, Data := [], GasLimit := 0 }
        addrA (ledgerWith addrA 0 allPerms)
      = (HandlerResult.fail .AddressMalformed, ledgerWith addrA 0 allPerms)
    ∧ MessageCall (constEngine [] 0) { To := addrB, Nonce := 0, Data := [], GasLimit := 0 }
        addrA (ledgerWith addrA 0 allPerms)
      = (HandlerResult.fail .ReceiverNotFound, ledgerWith addrA 0 allPerms) :=
  ⟨(message_call_validation_precedence (constEngine [] 0)
      { To := [1, 2, 3], Nonce := 9, Data := [], GasLimit := 0 } addrB
      (ledgerWith addrA 0 allPerms)).1 rfl,
   ((message_call_validation_precedence (constEngine [] 0)
      { To := [1, 2, 3], Nonce := 9, Data := [], GasLimit := 0 } addrA
      (ledgerWith addrA 0 noCallPerms)).2
      { address := addrA, sequence := 0, code := [], permissions := noCallPerms } rfl).1
      (by decide),
   (((message_call_validation_precedence (constEngine [] 0)
      { To := [1, 2, 3], Nonce := 9, Data := [], GasLimit := 0 } addrA
      (ledgerWith addrA 0 allPerms)).2
      { address := addrA, sequence := 0, code := [], permissions := allPerms } rfl).2
      (by decide)).1 (by decide),
   ((((message_call_validation_precedence (constEngine [] 0)
      { To := [1, 2, 3], Nonce := 0, Data := [], GasLimit := 0 } addrA
      (ledgerWith addrA 0 allPerms)).2
      { address := addrA, sequence := 0, code := [], permissions := allPerms } rfl).2
      (by decide)).2 rfl).1 (by decide),
   ((((message_call_validation_precedence (constEngine [] 0)
      { To := addrB, Nonce := 0, Data := [], GasLimit := 0 } addrA
      (ledgerWith addrA 0 allPerms)).2
      { address := addrA, sequence := 0, code := [], permissions := allPerms } rfl).2
      (by decide)).2 rfl).2 (by decide) rfl⟩

/-! ### C18: self-creation ignores the nonce and the permission record -/

/-- C18: two `CreateExternalAccount` transactions with no target address, which
may differ in their declared nonce and in their optional permission record,
produce the same result (the same error, or the same `NewAccount`) and the same
post-state, for every sender and pre-state: self-creation checks no nonce and
the supplied permission record does not reach the new account. -/
theorem self_creation_ignores_nonce_and_permissions (txn1 txn2 : CreateExternalAccountTxn)
    (sender : Address) (sapps : SawtoothAppState)
    (h1 : txn1.To = none) (h2 : txn2.To = none) :
    CreateExternalAccount txn1 sender sapps = CreateExternalAccount txn2 sender sapps := by
  unfold CreateExternalAccount
  rw [h1, h2]

/-- C18 at a concrete input: on the empty ledger, self-creation with nonce 0 and
no permission record and self-creation with nonce 7 and a permission record
give the same result and the same ledger. -/
theorem self_creation_ignores_nonce_and_permissions_witness :
    CreateExternalAccount { To := none, Nonce := 0, Permissions := none } addrA emptyLedger
      = CreateExternalAccount { To := none, Nonce := 7, Permissions := some allEvmPerms } addrA
          emptyLedger :=
  self_creation_ignores_nonce_and_permissions
    { To := none, Nonce := 0, Permissions := none }
    { To := none, Nonce := 7, Permissions := some allEvmPerms } addrA emptyLedger rfl rfl

end Seth
